import Mathlib

/-!
Verification of the QKD EU link simulator's atmospheric-profile engine.

The definitions below are a shallow embedding of `src/app/atmosphere.py` and
`src/app/meteo_field.py` (the copies in `src/app/backend.py` are identical for
the functions treated here).  Python floats are modelled as real numbers,
Python `Optional` values as `Option`, raised exceptions as `Except`, and the
process-wide Open-Meteo response cache as an explicit state machine over an
addressed heap (so that object identity and mutation can be spoken about).
-/

namespace QKD

/-! ## Python string primitives (`str.strip`, `str.lower`) -/

/-- ASCII lower-casing of a single character, as `str.lower` acts on the
ASCII range (all inputs relevant here are ASCII). -/
def asciiLowerChar (c : Char) : Char :=
  if 'A' ≤ c ∧ c ≤ 'Z' then Char.ofNat (c.toNat + 32) else c

/-- `str.lower` restricted to ASCII text. -/
def pyLower (s : String) : String :=
  String.mk (s.data.map asciiLowerChar)

/-- Python's notion of whitespace for `str.strip` (ASCII part). -/
def isPySpace (c : Char) : Bool :=
  c = ' ' || c = '\t' || c = '\n' || c = '\r' || c = '\x0b' || c = '\x0c'

/-- `str.strip`: drop leading and trailing whitespace. -/
def pyStrip (s : String) : String :=
  String.mk (((s.data.dropWhile isPySpace).reverse.dropWhile isPySpace).reverse)

/-- The normalisation `(model or "").strip().lower()` applied by
`resolve_model_name` (for strings; the `or ""` only matters for `None`). -/
def pyNormalize (s : String) : String := pyLower (pyStrip s)

/-! ## Exceptions (`atmosphere.py` lines 28-37, `meteo_field.py` lines 19-24) -/

/-- The atmosphere error taxonomy: `AtmosphereProviderError` and
`AtmosphereModelNotFoundError`; `indexError` stands for Python's built-in
`IndexError` escaping from a bad list subscript. -/
inductive AtmError
  | providerError (msg : String)
  | modelNotFound (msg : String)
  | indexError
  deriving DecidableEq, Repr

/-- `WeatherFieldParameterError` from `meteo_field.py`. -/
inductive WeatherFieldErr
  | parameterError (msg : String)
  deriving DecidableEq, Repr

/-! ## Model registry (`atmosphere.py` lines 518-532) -/

/-- Tags for the three provider functions registered in `PROVIDERS`. -/
inductive ProviderTag
  | hv57 | bufton | greenwood
  deriving DecidableEq, Repr

/-- The `PROVIDERS` registry: model key to provider function
(`_hv57_provider`, `_bufton_provider`, `_greenwood_provider`). -/
def PROVIDERS : List (String × ProviderTag) :=
  [("hufnagel-valley", ProviderTag.hv57),
   ("hv57", ProviderTag.hv57),
   ("bufton", ProviderTag.bufton),
   ("greenwood", ProviderTag.greenwood)]

/-- `resolve_model_name` (`atmosphere.py` lines 526-532). -/
def resolve_model_name (model : String) : Except AtmError String :=
  let normalized := pyNormalize model
  if normalized = "" || normalized = "auto" then
    Except.ok "hufnagel-valley"
  else if (PROVIDERS.lookup normalized).isSome then
    Except.ok normalized
  else
    Except.error (AtmError.modelNotFound
      ("Atmospheric model " ++ model ++ " is not available"))

/-- The provider a resolved key selects (`PROVIDERS[provider_name]` in
`build_profile`). -/
def providerFor (m : String) : Option ProviderTag :=
  match resolve_model_name m with
  | Except.ok key => PROVIDERS.lookup key
  | Except.error _ => none

/-! ## Weather-field variable catalog (`meteo_field.py` lines 54-108) -/

/-- One entry of `VARIABLE_DEFINITIONS`: display label, units and the
pressure-level to Open-Meteo-key table. -/
structure VarDef where
  label : String
  units : String
  levels : List (Int × String)
  deriving DecidableEq, Repr

/-- The fixed catalog `VARIABLE_DEFINITIONS`. -/
def VARIABLE_DEFINITIONS : List (String × VarDef) :=
  [("wind_speed",
    { label := "Wind speed", units := "m/s",
      levels := [(200, "wind_speed_200hPa"), (250, "wind_speed_250hPa"),
                 (300, "wind_speed_300hPa"), (500, "wind_speed_500hPa"),
                 (700, "wind_speed_700hPa"), (850, "wind_speed_850hPa")] }),
   ("temperature",
    { label := "Temperature", units := "degC",
      levels := [(200, "temperature_200hPa"), (300, "temperature_300hPa"),
                 (500, "temperature_500hPa"), (700, "temperature_700hPa"),
                 (850, "temperature_850hPa")] }),
   ("relative_humidity",
    { label := "Relative humidity", units := "%",
      levels := [(700, "relative_humidity_700hPa"), (850, "relative_humidity_850hPa"),
                 (925, "relative_humidity_925hPa")] }),
   ("geopotential_height",
    { label := "Geopotential height", units := "m",
      levels := [(500, "geopotential_height_500hPa"), (700, "geopotential_height_700hPa"),
                 (850, "geopotential_height_850hPa")] })]

/-- `_resolve_variable` (`meteo_field.py` lines 99-108). -/
def _resolve_variable (var_name : String) (level_hpa : Int) :
    Except WeatherFieldErr VarDef :=
  let key := pyNormalize var_name
  match VARIABLE_DEFINITIONS.lookup key with
  | none => Except.error (WeatherFieldErr.parameterError
      ("Unsupported variable " ++ var_name))
  | some definition =>
      if (definition.levels.lookup level_hpa).isSome then
        Except.ok definition
      else
        Except.error (WeatherFieldErr.parameterError
          ("Variable " ++ var_name ++ " is not available at this level"))

/-! ## Weather-field grid generation (`meteo_field.py` lines 119-139) -/

/-- `_lerp` (`meteo_field.py` line 119). -/
def _lerp (start stop fraction : ℚ) : ℚ := start + (stop - start) * fraction

/-- `max(16, min(900, int(sample_hint)))`. -/
def clampSamples (sample_hint : Int) : Nat := (max 16 (min 900 sample_hint)).toNat

/-- `int(round(sqrt(n)))` for a natural `n`: the integer nearest to `√n`.
`√n` is never exactly half-way between integers (`4*n = (2r+1)^2` is
impossible by parity), so no rounding-tie behaviour is involved. -/
def pyRoundSqrt (n : Nat) : Nat :=
  let r := Nat.sqrt n
  if (2 * r + 1) ^ 2 ≤ 4 * n then r + 1 else r

/-- `cols = max(12, int(round(sqrt(clamped_samples * 2))))`. -/
def gridCols (sample_hint : Int) : Nat :=
  max 12 (pyRoundSqrt (clampSamples sample_hint * 2))

/-- `rows = max(6, int(ceil(clamped_samples / cols)))` (the division is exact
rational division followed by ceiling, i.e. `Nat` ceiling division). -/
def gridRows (sample_hint : Int) : Nat :=
  max 6 ((clampSamples sample_hint + gridCols sample_hint - 1) / gridCols sample_hint)

/-- The latitude sample array of `_generate_grid`. -/
def gridLatitudes (sample_hint : Int) : List ℚ :=
  let rows := gridRows sample_hint
  (List.range rows).map (fun idx : ℕ =>
    if 1 < rows then _lerp (-80) 80 ((idx : ℚ) / ((rows : ℚ) - 1)) else 0)

/-- The longitude sample array of `_generate_grid`. -/
def gridLongitudes (sample_hint : Int) : List ℚ :=
  let cols := gridCols sample_hint
  (List.range cols).map (fun idx : ℕ =>
    if 1 < cols then _lerp (-180) 180 ((idx : ℚ) / ((cols : ℚ) - 1)) else 0)

/-! ## JSON-like values for serialized output

`AtmosphericProfile.to_dict` emits nested Python dicts/lists that become JSON.
`J` models those values; `J.null` is Python's `None`. -/

inductive J
  | null
  | num (x : ℝ)
  | str (s : String)
  | bool (b : Bool)
  | arr (items : List J)
  | obj (entries : List (String × J))

/-- Constructor test for `value is None`. -/
def J.isNull : J → Bool
  | J.null => true
  | _ => false

/-- A `None`-valued key occurs somewhere in the value, at any nesting level. -/
inductive HasNull : J → Prop
  | self : HasNull J.null
  | inObj {entries : List (String × J)} {k : String} {v : J} :
      (k, v) ∈ entries → HasNull v → HasNull (J.obj entries)
  | inArr {items : List J} {v : J} :
      v ∈ items → HasNull v → HasNull (J.arr items)

/-- An optional float rendered as a JSON value. -/
noncomputable def optField : Option ℝ → J
  | none => J.null
  | some x => J.num x

/-! ## Data containers (`atmosphere.py` lines 69-115) -/

structure AtmosphericLayer where
  alt_km : ℝ
  cn2 : Option ℝ
  wind_mps : Option ℝ
  temperature_k : Option ℝ
  humidity : Option ℝ

structure AtmosphericSummary where
  r0_zenith : Option ℝ
  fG_zenith : Option ℝ
  theta0_zenith : Option ℝ
  wind_rms : Option ℝ
  loss_aod_db : Option ℝ
  loss_abs_db : Option ℝ
  coherence_time_ms : Option ℝ
  scintillation_index : Option ℝ

structure AtmosphericProfile where
  model : String
  status : String
  timestamp : String
  summary : AtmosphericSummary
  layers : List AtmosphericLayer
  sources : List (String × J)
  metadata : List (String × J)

/-- `dataclasses.asdict` on an `AtmosphericSummary` (field order as declared). -/
noncomputable def summaryAsDict (s : AtmosphericSummary) : List (String × J) :=
  [("r0_zenith", optField s.r0_zenith),
   ("fG_zenith", optField s.fG_zenith),
   ("theta0_zenith", optField s.theta0_zenith),
   ("wind_rms", optField s.wind_rms),
   ("loss_aod_db", optField s.loss_aod_db),
   ("loss_abs_db", optField s.loss_abs_db),
   ("coherence_time_ms", optField s.coherence_time_ms),
   ("scintillation_index", optField s.scintillation_index)]

/-- `dataclasses.asdict` on an `AtmosphericLayer`. -/
noncomputable def layerAsDict (l : AtmosphericLayer) : List (String × J) :=
  [("alt_km", J.num l.alt_km),
   ("cn2", optField l.cn2),
   ("wind_mps", optField l.wind_mps),
   ("temperature_k", optField l.temperature_k),
   ("humidity", optField l.humidity)]

/-- `_clean_dict` (`atmosphere.py` lines 112-115): drop keys whose value is
`None`. -/
def _clean_dict (payload : List (String × J)) : List (String × J) :=
  payload.filter (fun kv => !(J.isNull kv.2))

/-- `AtmosphericProfile.to_dict` (`atmosphere.py` lines 100-109): summary and
layers are cleaned, sources and metadata are passed through verbatim. -/
noncomputable def AtmosphericProfile.to_dict (p : AtmosphericProfile) :
    List (String × J) :=
  [("model", J.str p.model),
   ("status", J.str p.status),
   ("timestamp", J.str p.timestamp),
   ("summary", J.obj (_clean_dict (summaryAsDict p.summary))),
   ("layers", J.arr (p.layers.map (fun l => J.obj (_clean_dict (layerAsDict l))))),
   ("sources", J.obj p.sources),
   ("metadata", J.obj p.metadata)]

/-! ## The query object (`atmosphere.py` lines 40-66) -/

/-- The pieces of the Python `datetime` the engine actually reads: the hour
number and the three `strftime`/`isoformat` renderings. -/
structure PyTimestamp where
  hour : Nat
  hourKey : String
  dateKey : String
  isoSecond : String

structure AtmosphereQuery where
  lat : ℚ
  lon : ℚ
  timestamp : PyTimestamp
  model : String
  ground_cn2_day : ℝ
  ground_cn2_night : ℝ
  wavelength_nm : ℝ

/-- `AtmosphereQuery.is_day`: local hour in `[6, 18)`. -/
def AtmosphereQuery.is_day (q : AtmosphereQuery) : Bool :=
  decide (6 ≤ q.timestamp.hour) && decide (q.timestamp.hour < 18)

/-- `AtmosphereQuery.ground_cn2`: day or night value selected by `is_day`. -/
noncomputable def AtmosphereQuery.ground_cn2 (q : AtmosphereQuery) : ℝ :=
  if q.is_day then q.ground_cn2_day else q.ground_cn2_night

/-! ## Hourly datasets and the hour resolver -/

/-- The `hourly` block of an Open-Meteo response: the `time` timeline and one
parallel series per variable (entries are floats or `null`). -/
structure Hourly where
  time : List String
  series : List (String × List (Option ℝ))

/-- A fetched dataset, whose `hourly` presence was checked by the client. -/
structure Dataset where
  hourly : Hourly

/-- `_resolve_hour_index` (`atmosphere.py` lines 171-180): position of the
exact hour-key string in the timeline. -/
def _resolve_hour_index (hourly_block : Hourly) (hour_key : String) :
    Except AtmError Nat :=
  match hourly_block.time.indexOf? hour_key with
  | some idx => Except.ok idx
  | none => Except.error (AtmError.providerError
      ("No Open-Meteo sample available for " ++ hour_key))

/-- `hourly.get(key, [None])`: the variable's series, or the one-element
`[None]` default when the key is absent. -/
def seriesDefault (hourly_block : Hourly) (key : String) : List (Option ℝ) :=
  (hourly_block.series.lookup key).getD [none]

/-- Python list subscription `l[idx]`: the element, or an `IndexError`. -/
def pyListGet (l : List (Option ℝ)) (idx : Nat) : Except AtmError (Option ℝ) :=
  match l.get? idx with
  | some v => Except.ok v
  | none => Except.error AtmError.indexError

/-! ## Summary Integrator (`atmosphere.py` lines 183-248) -/

/-- Python's `x or default` for an optional float: `None` and `0.0` are both
falsy and select the default. -/
noncomputable def pyOrFloat (x : Option ℝ) (default : ℝ) : ℝ :=
  match x with
  | none => default
  | some v => if v = 0 then default else v

/-- `np.trapz(y, x)`: trapezoidal integration of samples `y` over sample
points `x` (0 when fewer than two points). -/
noncomputable def trapz : List ℝ → List ℝ → ℝ
  | y1 :: y2 :: ys, x1 :: x2 :: xs => (x2 - x1) * (y1 + y2) / 2 + trapz (y2 :: ys) (x2 :: xs)
  | _, _ => 0

/-- `_calculate_summary_from_layers` (`atmosphere.py` lines 183-248).
`np.argsort` reordering of the parallel arrays is modelled by sorting the
(height, cn2, wind) triples by height; the triples travel together, so which
order ties break in does not change any of the outputs. -/
noncomputable def _calculate_summary_from_layers (layers : List AtmosphericLayer)
    (wavelength_nm : ℝ) (fallback_wind : Option ℝ)
    (base_loss_aod : ℝ) (base_loss_abs : ℝ) : AtmosphericSummary :=
  let kept := layers.filter (fun l => l.cn2.isSome)
  let heights_m := kept.map (fun l => l.alt_km * 1000)
  let cn2_values := kept.map (fun l => l.cn2.getD 0)
  let wind_values := kept.map (fun l =>
    match l.wind_mps with
    | some w => some w
    | none => fallback_wind)
  if cn2_values.length < 2 then
    { r0_zenith := some 0.1
      fG_zenith := some 30
      theta0_zenith := some 1.5
      wind_rms := some (pyOrFloat fallback_wind 15)
      loss_aod_db := some base_loss_aod
      loss_abs_db := some base_loss_abs
      coherence_time_ms := none
      scintillation_index := none }
  else
    let sorted := (heights_m.zip (cn2_values.zip wind_values)).mergeSort
      (fun a b => decide (a.1 ≤ b.1))
    let heights := sorted.map (fun t => t.1)
    let cn2 := sorted.map (fun t => t.2.1)
    let winds := sorted.map (fun t => (t.2.2).getD 0)
    let k := 2 * Real.pi / (wavelength_nm * 1e-9)
    let integral_r0 := trapz cn2 heights
    let integral_theta := trapz (List.zipWith (fun c h => c * h ^ ((5 : ℝ) / 3)) cn2 heights) heights
    let integral_wind := trapz (List.zipWith (fun c w => c * |w| ^ ((5 : ℝ) / 3)) cn2 winds) heights
    let r0_zenith := (0.423 * k ^ 2 * max integral_r0 1e-20) ^ (-(3 : ℝ) / 5)
    let theta0_rad := (2.91 * k ^ 2 * max integral_theta 1e-20) ^ (-(3 : ℝ) / 5)
    let fG_zenith := (0.102 * k ^ 2 * max integral_wind 1e-30) ^ ((3 : ℝ) / 5)
    let wind_rms :=
      if 0 < (winds.filter (fun w => decide (w ≠ 0))).length then
        Real.sqrt ((winds.map (fun w => w ^ 2)).sum / winds.length)
      else pyOrFloat fallback_wind 15
    let tau0 := 0.314 * r0_zenith / max wind_rms 1e-3
    let cn2_scale := max integral_r0 1e-12
    let loss_aod := base_loss_aod + min 1.8 (0.18 * cn2_scale ^ ((0.3 : ℝ)))
    let loss_abs := base_loss_abs + min 1.2 (0.12 * cn2_scale ^ ((0.25 : ℝ)))
    { r0_zenith := some r0_zenith
      fG_zenith := some fG_zenith
      theta0_zenith := some (theta0_rad * (180 / Real.pi) * 3600)
      wind_rms := some wind_rms
      loss_aod_db := some loss_aod
      loss_abs_db := some loss_abs
      coherence_time_ms := some (tau0 * 1000)
      scintillation_index := none }

/-! ## Layer Builder (`atmosphere.py` lines 251-271) -/

noncomputable def _create_layers_from_samples (altitudes_km : List ℝ)
    (cn2_func : ℝ → ℝ) (wind_model : ℝ → ℝ)
    (temperature_profile : Option (ℝ → Option ℝ))
    (humidity_profile : Option (ℝ → Option ℝ)) : List AtmosphericLayer :=
  altitudes_km.map (fun alt_km =>
    { alt_km := alt_km
      cn2 := some (cn2_func (alt_km * 1000))
      wind_mps := some (wind_model alt_km)
      temperature_k := match temperature_profile with
        | some f => f alt_km
        | none => none
      humidity := match humidity_profile with
        | some f => f alt_km
        | none => none })

/-! ## Hufnagel-Valley provider (`atmosphere.py` lines 279-324) -/

/-- The `cn2_hv` closure: HV5/7 structure-parameter profile with the derived
300 hPa wind `W` and floored ground coefficient `A` (altitudes used by the
provider are nonnegative). -/
noncomputable def cn2_hv (W A h_metres : ℝ) : ℝ :=
  0.00594 * (W / 27) ^ 2 * (h_metres * 1e-5) ^ 10 * Real.exp (-h_metres / 1000)
    + 2.7e-16 * Real.exp (-h_metres / 1500)
    + A * Real.exp (-h_metres / 100)

/-- The `wind_profile` closure of `_hv57_provider` (`atmosphere.py` lines
300-302). -/
noncomputable def wind_profile_hv (W alt_km : ℝ) : ℝ :=
  max 0 (W * (1 - Real.exp (-alt_km / 5)) + 3)

/-- The fixed HV altitude ladder (km). -/
noncomputable def hv_altitudes : List ℝ := [0, 0.2, 0.5, 1, 2, 5, 10, 15, 20]

/-- `_hv57_provider` (`atmosphere.py` lines 279-324), downstream of the client
fetch: the injected client's `fetch_hourly` result is passed in as `dataset`. -/
noncomputable def _hv57_provider (query : AtmosphereQuery) (dataset : Dataset) :
    Except AtmError AtmosphericProfile :=
  let variable_names := ["wind_u_component_300hPa", "wind_v_component_300hPa"]
  let hourly := dataset.hourly
  match _resolve_hour_index hourly query.timestamp.hourKey with
  | Except.error e => Except.error e
  | Except.ok idx =>
    match pyListGet (seriesDefault hourly "wind_u_component_300hPa") idx with
    | Except.error e => Except.error e
    | Except.ok wind_u =>
      match pyListGet (seriesDefault hourly "wind_v_component_300hPa") idx with
      | Except.error e => Except.error e
      | Except.ok wind_v =>
        match wind_u, wind_v with
        | some u, some v =>
          let W := max (Real.sqrt (u ^ 2 + v ^ 2)) 5
          let A := max query.ground_cn2 1e-17
          let layers := _create_layers_from_samples hv_altitudes
            (cn2_hv W A) (wind_profile_hv W) none none
          let summary := _calculate_summary_from_layers layers
            query.wavelength_nm (some W) 0.2 0.1
          Except.ok
            { model := "hufnagel-valley"
              status := "ok"
              timestamp := query.timestamp.isoSecond ++ "Z"
              summary := summary
              layers := layers
              sources := [("provider", J.str "Open-Meteo forecast"),
                          ("variables", J.arr (variable_names.map J.str))]
              metadata := [("daytime", J.bool query.is_day),
                           ("wavelength_nm", J.num query.wavelength_nm),
                           ("ground_cn2", J.num query.ground_cn2),
                           ("wind_speed_300hPa", J.num W)] }
        | _, _ => Except.error (AtmError.providerError
            "Missing 300 hPa wind components for Hufnagel-Valley model")

/-! ## Bufton provider (`atmosphere.py` lines 327-416) -/

/-- The `_wind_speed` helper of `_bufton_provider`: Euclidean norm of the
u/v components at the given pressure-level key, or a provider error (an
`IndexError` surfaces if the index is out of range for a present series). -/
noncomputable def windSpeedAt (hourly_block : Hourly) (idx : Nat) (key : String) :
    Except AtmError ℝ :=
  match pyListGet (seriesDefault hourly_block ("wind_u_component_" ++ key)) idx with
  | Except.error e => Except.error e
  | Except.ok u? =>
    match pyListGet (seriesDefault hourly_block ("wind_v_component_" ++ key)) idx with
    | Except.error e => Except.error e
    | Except.ok v? =>
      match u?, v? with
      | some u, some v => Except.ok (Real.sqrt (u ^ 2 + v ^ 2))
      | _, _ => Except.error (AtmError.providerError
          ("Missing wind component for " ++ key))

/-- The `cn2_bufton` closure (`atmosphere.py` lines 358-366). -/
noncomputable def cn2_bufton (A shear_factor lapse_correction h_metres : ℝ) : ℝ :=
  let h_km := h_metres / 1000
  if h_km < 0.5 then A * Real.exp (-h_metres / 60)
  else if h_km < 1.5 then 0.3 * A * Real.exp (-h_metres / 120) * shear_factor
  else if h_km < 5 then 0.08 * A * Real.exp (-h_metres / 600) * lapse_correction
  else 0.02 * A * Real.exp (-(h_metres - 5000) / 1500)

/-- The `wind_profile` closure of `_bufton_provider` (`atmosphere.py` lines
368-375). -/
noncomputable def wind_profile_bufton (wind_850 wind_500 wind_300 alt_km : ℝ) : ℝ :=
  if alt_km < 0.5 then max 2 (wind_850 * 0.6)
  else if alt_km < 1.5 then (wind_850 + wind_500) / 2
  else if alt_km < 6 then wind_500
  else wind_300

/-- The `temperature_profile` closure of `_bufton_provider` (`atmosphere.py`
lines 377-382). -/
noncomputable def temperature_profile_bufton (temp_850 : Option ℝ) (alt_km : ℝ) :
    Option ℝ :=
  match temp_850 with
  | none => none
  | some t => some ((t + 273.15) + (-6.5) * (alt_km - 1.5))

/-- The fixed Bufton altitude ladder (km). -/
noncomputable def bufton_altitudes : List ℝ := [0, 0.25, 0.5, 1, 2, 3, 5, 8, 12]

/-- `_bufton_provider` (`atmosphere.py` lines 327-416), downstream of the
client fetch. -/
noncomputable def _bufton_provider (query : AtmosphereQuery) (dataset : Dataset) :
    Except AtmError AtmosphericProfile :=
  let variable_names :=
    ["wind_u_component_300hPa", "wind_v_component_300hPa",
     "wind_u_component_500hPa", "wind_v_component_500hPa",
     "wind_u_component_850hPa", "wind_v_component_850hPa",
     "temperature_850hPa"]
  let hourly := dataset.hourly
  match _resolve_hour_index hourly query.timestamp.hourKey with
  | Except.error e => Except.error e
  | Except.ok idx =>
    match windSpeedAt hourly idx "300hPa" with
    | Except.error e => Except.error e
    | Except.ok wind_300 =>
      match windSpeedAt hourly idx "500hPa" with
      | Except.error e => Except.error e
      | Except.ok wind_500 =>
        match windSpeedAt hourly idx "850hPa" with
        | Except.error e => Except.error e
        | Except.ok wind_850 =>
          match pyListGet (seriesDefault hourly "temperature_850hPa") idx with
          | Except.error e => Except.error e
          | Except.ok temp_850 =>
            let lapse_correction : ℝ :=
              match temp_850 with
              | none => 0.8
              | some t => max 0.5 (min 1.5 ((t + 273.15) / 290))
            let A := max query.ground_cn2 1e-17
            let shear_factor := max 0.5 (min 2.5 (|wind_500 - wind_850| / 10))
            let layers := _create_layers_from_samples bufton_altitudes
              (cn2_bufton A shear_factor lapse_correction)
              (wind_profile_bufton wind_850 wind_500 wind_300)
              (some (temperature_profile_bufton temp_850)) none
            let summary := _calculate_summary_from_layers layers
              query.wavelength_nm
              (some (Real.sqrt ((wind_300 ^ 2 + wind_500 ^ 2 + wind_850 ^ 2) / 3)))
              0.25 0.12
            let summary2 := { summary with
              scintillation_index := some (min 1.5 (0.3 + shear_factor * 0.2)) }
            Except.ok
              { model := "bufton"
                status := "ok"
                timestamp := query.timestamp.isoSecond ++ "Z"
                summary := summary2
                layers := layers
                sources := [("provider", J.str "Open-Meteo forecast"),
                            ("variables", J.arr (variable_names.map J.str))]
                metadata := [("daytime", J.bool query.is_day),
                             ("wavelength_nm", J.num query.wavelength_nm),
                             ("ground_cn2", J.num query.ground_cn2),
                             ("wind_speed", J.obj
                               [("300hPa", J.num wind_300),
                                ("500hPa", J.num wind_500),
                                ("850hPa", J.num wind_850)]),
                             ("temperature_850hPa_K",
                               match temp_850 with
                               | none => J.null
                               | some t => J.num (t + 273.15))] }

/-! ## Open-Meteo client with caching (`atmosphere.py` lines 123-163)

Python returns the parsed JSON as a graph of mutable objects and
`fetch_hourly` hands callers `copy.deepcopy` of the cached structure.  To
state what mutation of one returned object does to another, responses live in
an explicit heap of addressed nodes: `Val` is a pure JSON tree, `Node` is one
heap cell whose children are heap addresses, mutation replaces one cell. -/

/-- JSON scalar. -/
inductive Prim
  | pnull
  | pnum (q : ℚ)
  | pstr (s : String)
  | pbool (b : Bool)
  deriving DecidableEq, Repr

/-- A pure JSON tree (what the remote endpoint sends over the wire). -/
inductive Val
  | prim (p : Prim)
  | dict (entries : List (String × Val))
  | arr (items : List Val)
  deriving Repr

/-- A heap address. -/
abbrev Ref := Nat

/-- One heap cell: a Python object whose compound children are addresses. -/
inductive Node
  | prim (p : Prim)
  | dict (entries : List (String × Ref))
  | arr (items : List Ref)
  deriving DecidableEq, Repr

/-- The object heap; an address is an index, allocation appends. -/
abbrev Heap := List Node

mutual

/-- Materialise a pure JSON tree as freshly allocated heap objects (children
first), returning the new heap and the root address — this is what parsing a
response does, and what `copy.deepcopy` does to the value it read. -/
def allocVal : Heap → Val → Heap × Ref
  | H, Val.prim p => (H ++ [Node.prim p], H.length)
  | H, Val.dict entries =>
      let res := allocEntries H entries
      (res.1 ++ [Node.dict ((entries.map Prod.fst).zip res.2)], res.1.length)
  | H, Val.arr items =>
      let res := allocItems H items
      (res.1 ++ [Node.arr res.2], res.1.length)

/-- Allocate each value of a dict's entry list, left to right. -/
def allocEntries : Heap → List (String × Val) → Heap × List Ref
  | H, [] => (H, [])
  | H, (_, v) :: rest =>
      let r := allocVal H v
      let rs := allocEntries r.1 rest
      (rs.1, r.2 :: rs.2)

/-- Allocate each element of an array, left to right. -/
def allocItems : Heap → List Val → Heap × List Ref
  | H, [] => (H, [])
  | H, v :: rest =>
      let r := allocVal H v
      let rs := allocItems r.1 rest
      (rs.1, r.2 :: rs.2)

end

/-- Read the pure JSON tree rooted at an address (fuel-bounded; dangling
addresses and exhausted fuel read as `null`). -/
def readVal : Nat → Heap → Ref → Val
  | 0, _, _ => Val.prim Prim.pnull
  | fuel + 1, H, r =>
    match H[r]? with
    | none => Val.prim Prim.pnull
    | some (Node.prim p) => Val.prim p
    | some (Node.dict entries) =>
        Val.dict (entries.map (fun kv => (kv.1, readVal fuel H kv.2)))
    | some (Node.arr items) =>
        Val.arr (items.map (fun c => readVal fuel H c))

/-- The child addresses one heap cell holds. -/
def childRefs : Node → List Ref
  | Node.prim _ => []
  | Node.dict entries => entries.map Prod.snd
  | Node.arr items => items

/-- The addresses `readVal` with the same fuel may dereference. -/
def refsOf : Nat → Heap → Ref → List Ref
  | 0, _, r => [r]
  | fuel + 1, H, r =>
    r :: (match H[r]? with
      | none => []
      | some nd => (childRefs nd).flatMap (refsOf fuel H))

/-- `readVal` truncated at the depth a given fuel allows: what any fuel-`f`
read of a faithfully allocated copy of `v` returns. -/
def truncVal : Nat → Val → Val
  | 0, _ => Val.prim Prim.pnull
  | _ + 1, Val.prim p => Val.prim p
  | fuel + 1, Val.dict entries =>
      Val.dict (entries.map (fun kv => (kv.1, truncVal fuel kv.2)))
  | fuel + 1, Val.arr items => Val.arr (items.map (truncVal fuel))

/-- All of a cell's children lie in `[lo, r)`: at or above the segment floor
but strictly before the cell itself. -/
def NodeBelow (lo r : Nat) (nd : Node) : Prop :=
  ∀ c ∈ childRefs nd, lo ≤ c ∧ c < r

/-- Every cell at or above the floor `lo` only points into `[lo, ·)`: the
heap segment from `lo` up is self-contained and downward-pointing, which is
what allocating a pure tree produces. -/
def GoodSeg (H : Heap) (lo : Nat) : Prop :=
  ∀ r nd, lo ≤ r → H[r]? = some nd → NodeBelow lo r nd

/-- `copy.deepcopy`: materialise the tree reachable from `r` as all-fresh
objects (responses are parsed JSON, hence acyclic, and a fuel of `r + 1`
suffices because every child address precedes its parent's). -/
def pyDeepcopy (H : Heap) (r : Ref) : Heap × Ref :=
  allocVal H (readVal (r + 1) H r)

/-- Python's `round(x, 3)`: round half to even at the third decimal. -/
def pyRoundHalfEven (x : ℚ) : ℤ :=
  let f := ⌊x⌋
  let d := x - (f : ℚ)
  if d < 1 / 2 then f
  else if 1 / 2 < d then f + 1
  else if f % 2 = 0 then f else f + 1

/-- `round(x, 3)`. -/
def pyRound3 (x : ℚ) : ℚ := (pyRoundHalfEven (x * 1000) : ℚ) / 1000

/-- String ≤ as a Bool, for `sorted`. -/
def strLeB (a b : String) : Bool := !(decide (b < a))

/-- `tuple(sorted(set(variables)))`: the sorted list of distinct names. -/
def sortedDedupVars (l : List String) : List String :=
  (l.eraseDups).mergeSort strLeB

/-- The `lru_cache` key of `_fetch_open_meteo_cached`:
`(lat_key, lon_key, date_key, variable_tuple)`. -/
structure CacheKey where
  latKey : ℚ
  lonKey : ℚ
  dateKey : String
  variableTuple : List String
  deriving DecidableEq, Repr

/-- The process-wide mutable state: object heap, response cache, and a count
of remote requests issued. -/
structure ClientState where
  heap : Heap
  cache : List (CacheKey × Ref)
  remoteCount : Nat

/-- A fresh process: empty heap, empty cache, no remote requests yet. -/
def initialClientState : ClientState :=
  { heap := [], cache := [], remoteCount := 0 }

/-- `"hourly" in data` on the parsed response. -/
def hasHourlyKey : Val → Bool
  | Val.dict entries => (entries.lookup "hourly").isSome
  | _ => false

/-- `_fetch_open_meteo_cached` (`atmosphere.py` lines 140-163): on a cache
hit return the cached object's address; on a miss issue one remote request
(`remote` stands for the deterministic endpoint), fail if the response has no
`hourly` block (failures are not cached), otherwise parse, cache and return. -/
def _fetch_open_meteo_cached (remote : CacheKey → Val) (key : CacheKey)
    (s : ClientState) : Except AtmError Ref × ClientState :=
  match s.cache.lookup key with
  | some r => (Except.ok r, s)
  | none =>
      let data := remote key
      let s1 := { s with remoteCount := s.remoteCount + 1 }
      if hasHourlyKey data then
        let res := allocVal s1.heap data
        (Except.ok res.2,
         { s1 with heap := res.1, cache := (key, res.2) :: s1.cache })
      else
        (Except.error (AtmError.providerError
          "Open-Meteo response missing hourly block"), s1)

/-- `OpenMeteoClient.fetch_hourly` (`atmosphere.py` lines 126-137): reject an
empty variable list, build the cache key from the 3-decimal-rounded
coordinates, the date key and the deduplicated sorted variable names, consult
the cache, and hand the caller a deep copy of the cached structure. -/
def fetch_hourly (remote : CacheKey → Val) (lat lon : ℚ) (date_key : String)
    (variable_names : List String) (s : ClientState) :
    Except AtmError Ref × ClientState :=
  if variable_names.isEmpty then
    (Except.error (AtmError.providerError
      "No variables requested for Open-Meteo fetch"), s)
  else
    let key : CacheKey :=
      { latKey := pyRound3 lat, lonKey := pyRound3 lon, dateKey := date_key,
        variableTuple := sortedDedupVars variable_names }
    match _fetch_open_meteo_cached remote key s with
    | (Except.error e, s1) => (Except.error e, s1)
    | (Except.ok raw, s1) =>
        let res := pyDeepcopy s1.heap raw
        (Except.ok res.2, { s1 with heap := res.1 })

/-! ## Small helpers used by the statements below -/

/-- Did the call succeed (no exception raised)? -/
def isOkE {ε α : Type} : Except ε α → Bool
  | Except.ok _ => true
  | Except.error _ => false

/-- Did the call raise `AtmosphereModelNotFoundError`? -/
def isModelNotFound : Except AtmError String → Bool
  | Except.error (AtmError.modelNotFound _) => true
  | _ => false

/-- Did the call raise `WeatherFieldParameterError`? -/
def isParamError : Except WeatherFieldErr VarDef → Bool
  | Except.error (WeatherFieldErr.parameterError _) => true
  | Except.ok _ => false

/-- The number of layers carrying a Cn² value — the quantity the Summary
Integrator's `len(cn2_values) < 2` gate tests. -/
def cn2LayerCount (layers : List AtmosphericLayer) : Nat :=
  (layers.filter (fun l => l.cn2.isSome)).length

/-- The layer list of a provider result (empty when the provider failed). -/
noncomputable def providerLayers (r : Except AtmError AtmosphericProfile) :
    List AtmosphericLayer :=
  match r with
  | Except.ok p => p.layers
  | Except.error _ => []

instance : Inhabited AtmosphericLayer :=
  ⟨{ alt_km := 0, cn2 := none, wind_mps := none, temperature_k := none,
     humidity := none }⟩

instance : Inhabited AtmosphericSummary :=
  ⟨{ r0_zenith := none, fG_zenith := none, theta0_zenith := none,
     wind_rms := none, loss_aod_db := none, loss_abs_db := none,
     coherence_time_ms := none, scintillation_index := none }⟩

instance : Inhabited AtmosphericProfile :=
  ⟨{ model := "", status := "", timestamp := "", summary := default,
     layers := [], sources := [], metadata := [] }⟩

/-- A concrete daytime query used to exercise the providers. -/
noncomputable def witnessQuery : AtmosphereQuery :=
  { lat := 404 / 10, lon := -37 / 10,
    timestamp := { hour := 12, hourKey := "2024-06-15T12:00",
                   dateKey := "2024-06-15", isoSecond := "2024-06-15T12:00:00" },
    model := "hufnagel-valley", ground_cn2_day := 1e-14,
    ground_cn2_night := 1e-15, wavelength_nm := 810 }

/-- A concrete fetched dataset carrying 300 hPa wind components (u=10, v=0)
for the witness query's hour. -/
noncomputable def hvWitnessDataset : Dataset :=
  { hourly := { time := ["2024-06-15T12:00"],
                series := [("wind_u_component_300hPa", [some 10]),
                           ("wind_v_component_300hPa", [some 0])] } }

/-- The first layer the Hufnagel-Valley provider builds on the witness data. -/
noncomputable def hvWitnessLayer : AtmosphericLayer :=
  (providerLayers (_hv57_provider witnessQuery hvWitnessDataset)).headI

/-- A concrete fetched dataset for the Bufton provider in which all six wind
components are present but `temperature_850hPa` is absent. -/
noncomputable def buftonWitnessDataset : Dataset :=
  { hourly := { time := ["2024-06-15T12:00"],
                series := [("wind_u_component_300hPa", [some 10]),
                           ("wind_v_component_300hPa", [some 0]),
                           ("wind_u_component_500hPa", [some 8]),
                           ("wind_v_component_500hPa", [some 0]),
                           ("wind_u_component_850hPa", [some 4]),
                           ("wind_v_component_850hPa", [some 0])] } }

/-- The profile the Bufton provider builds on the witness data (it succeeds;
`default` is never reached). -/
noncomputable def buftonWitnessProfile : AtmosphericProfile :=
  match _bufton_provider witnessQuery buftonWitnessDataset with
  | Except.ok p => p
  | Except.error _ => default

/-- Allocation contract for one value: the heap grows by appending, the root
is fresh, the segment above the floor stays self-contained, and reading the
root gives back the allocated tree (truncated by the fuel). -/
def AllocValOK (v : Val) : Prop :=
  ∀ H lo, lo ≤ H.length → GoodSeg H lo →
    (∃ t, (allocVal H v).1 = H ++ t) ∧
    H.length ≤ (allocVal H v).2 ∧
    (allocVal H v).2 < (allocVal H v).1.length ∧
    GoodSeg (allocVal H v).1 lo ∧
    (∀ f, readVal f (allocVal H v).1 (allocVal H v).2 = truncVal f v)

/-- Allocation contract for a dict's entry values. -/
def AllocEntriesOK (es : List (String × Val)) : Prop :=
  ∀ H lo, lo ≤ H.length → GoodSeg H lo →
    (∃ t, (allocEntries H es).1 = H ++ t) ∧
    GoodSeg (allocEntries H es).1 lo ∧
    List.Forall₂ (fun (kv : String × Val) (ri : Ref) =>
      H.length ≤ ri ∧ ri < (allocEntries H es).1.length ∧
      ∀ f, readVal f (allocEntries H es).1 ri = truncVal f kv.2)
      es (allocEntries H es).2

/-- Allocation contract for an array's items. -/
def AllocItemsOK (items : List Val) : Prop :=
  ∀ H lo, lo ≤ H.length → GoodSeg H lo →
    (∃ t, (allocItems H items).1 = H ++ t) ∧
    GoodSeg (allocItems H items).1 lo ∧
    List.Forall₂ (fun (v : Val) (ri : Ref) =>
      H.length ≤ ri ∧ ri < (allocItems H items).1.length ∧
      ∀ f, readVal f (allocItems H items).1 ri = truncVal f v)
      items (allocItems H items).2

/-- The concrete cache key used by the client-cache witness. -/
def witnessCacheKey : CacheKey :=
  { latKey := pyRound3 0, lonKey := pyRound3 0, dateKey := "2024-06-15",
    variableTuple := sortedDedupVars ["t"] }

/-! # Theorems -/

/-- Claim C7 — `resolve_model("unknown-model")` fails with
`ModelNotFoundError`, while `resolve_model("")` and `resolve_model("auto")`
both resolve to the default Hufnagel-Valley model without error. -/
theorem resolve_model_unknown_and_defaults :
    isModelNotFound (resolve_model_name "unknown-model") = true ∧
    resolve_model_name "" = Except.ok "hufnagel-valley" ∧
    resolve_model_name "auto" = Except.ok "hufnagel-valley" := by
  refine ⟨?_, ?_, ?_⟩ <;> rfl

/-- A key with a registry entry is one of the four registered literals. -/
theorem providers_lookup_cases {k : String}
    (h : (PROVIDERS.lookup k).isSome = true) :
    k = "hufnagel-valley" ∨ k = "hv57" ∨ k = "bufton" ∨ k = "greenwood" := by
  simp only [PROVIDERS, List.lookup] at h
  repeat' split at h
  all_goals simp_all [beq_iff_eq]

/-- Claim C2 counterexample — the claim's equation fails on the code:
`resolve_model_name " HV57 ")` is `"hv57"` while
`resolve_model_name("hufnagel-valley")` is `"hufnagel-valley"`, two distinct
canonical keys. -/
theorem resolve_model_alias_keys_differ :
    resolve_model_name " HV57 " ≠ resolve_model_name "hufnagel-valley" := by
  have h1 : resolve_model_name " HV57 " = Except.ok "hv57" := rfl
  have h2 : resolve_model_name "hufnagel-valley" = Except.ok "hufnagel-valley" := rfl
  rw [h1, h2]
  intro h
  have : ("hv57" : String) = "hufnagel-valley" := by
    injection h
  exact absurd this (by decide)

/-- Claim C2 (amended) — `resolve_model` is idempotent (resolving a resolved
key returns that key unchanged) and case/whitespace-insensitive (any string
normalising to a registered key resolves to that key); the alias `" HV57 "`
and `"hufnagel-valley"` resolve to keys that select the same provider
(`_hv57_provider`), though the two returned keys themselves differ. -/
theorem resolve_model_idempotent_insensitive :
    (∀ m k, resolve_model_name m = Except.ok k →
      resolve_model_name k = Except.ok k) ∧
    (∀ m k, pyNormalize m = k → (PROVIDERS.lookup k).isSome = true →
      resolve_model_name m = Except.ok k) ∧
    (providerFor " HV57 " = providerFor "hufnagel-valley" ∧
     providerFor " HV57 " = some ProviderTag.hv57) := by
  refine ⟨?_, ?_, by constructor <;> rfl⟩
  · intro m k h
    unfold resolve_model_name at h
    dsimp only at h
    split at h
    · cases h
      rfl
    · split at h
      · cases h
        rename_i hne hsome
        rcases providers_lookup_cases hsome with h1 | h1 | h1 | h1 <;> rw [h1] <;> rfl
      · cases h
  · intro m k hnorm hsome
    have hcases := providers_lookup_cases hsome
    unfold resolve_model_name
    dsimp only
    rw [hnorm]
    have hne : ¬(k = "" ∨ k = "auto") := by
      rcases hcases with h1 | h1 | h1 | h1 <;> subst h1 <;> decide
    rw [if_neg (by simpa using hne), if_pos hsome]

/-- Witness for the amended Claim C2 theorem at concrete inputs. -/
theorem resolve_model_idempotent_insensitive_witness :
    (resolve_model_name " HV57 " = Except.ok "hv57" ∧
     resolve_model_name "hv57" = Except.ok "hv57") ∧
    (pyNormalize " HV57 " = "hv57" ∧
     (PROVIDERS.lookup "hv57").isSome = true ∧
     resolve_model_name " HV57 " = Except.ok "hv57") :=
  ⟨⟨rfl, resolve_model_idempotent_insensitive.1 " HV57 " "hv57" rfl⟩,
   rfl, rfl, resolve_model_idempotent_insensitive.2.1 " HV57 " "hv57" rfl rfl⟩

/-- Claim C8 — resolving a weather-field variable/level pair succeeds exactly
when the pair (with the variable name trimmed and lower-cased, which is the
identity on the catalogued names) is in the fixed `VARIABLE_DEFINITIONS`
catalog; `"temperature"` at 300 hPa resolves without error, while the
uncatalogued `"temperature"` at 999 hPa fails with
`WeatherFieldParameterError`. -/
theorem resolve_variable_catalog_iff :
    (∀ v l, isOkE (_resolve_variable v l) =
      ((VARIABLE_DEFINITIONS.lookup (pyNormalize v)).bind
        (fun d => d.levels.lookup l)).isSome) ∧
    isOkE (_resolve_variable "temperature" 300) = true ∧
    isParamError (_resolve_variable "temperature" 999) = true := by
  refine ⟨?_, rfl, rfl⟩
  intro v l
  unfold _resolve_variable
  dsimp only
  cases h : VARIABLE_DEFINITIONS.lookup (pyNormalize v) with
  | none => rfl
  | some d =>
      dsimp only [Option.bind]
      cases hl : (d.levels.lookup l).isSome with
      | true => simp [isOkE]
      | false => simp [isOkE]

/-- The linearly spaced sample array `_generate_grid` builds over `[lo, hi]`
is strictly increasing and hits the two endpoints exactly. -/
theorem lerp_grid_props (n : ℕ) (lo hi : ℚ) (hn : 1 < n) (hlo : lo < hi) :
    List.Chain' (fun a b => a < b)
      ((List.range n).map (fun idx : ℕ =>
        if 1 < n then _lerp lo hi ((idx : ℚ) / ((n : ℚ) - 1)) else 0)) ∧
    ((List.range n).map (fun idx : ℕ =>
        if 1 < n then _lerp lo hi ((idx : ℚ) / ((n : ℚ) - 1)) else 0)).head? = some lo ∧
    ((List.range n).map (fun idx : ℕ =>
        if 1 < n then _lerp lo hi ((idx : ℚ) / ((n : ℚ) - 1)) else 0)).getLast? = some hi := by
  have hd : (0 : ℚ) < (n : ℚ) - 1 := by
    have h2 : (2 : ℚ) ≤ (n : ℚ) := by exact_mod_cast hn
    linarith
  refine ⟨?_, ?_, ?_⟩
  · refine List.Pairwise.chain' ?_
    rw [List.pairwise_map]
    refine (List.pairwise_lt_range n).imp ?_
    intro a b hab
    rw [if_pos hn, if_pos hn]
    unfold _lerp
    have hdiv : (a : ℚ) / ((n : ℚ) - 1) < (b : ℚ) / ((n : ℚ) - 1) :=
      (div_lt_div_iff_of_pos_right hd).mpr (by exact_mod_cast hab)
    have := mul_lt_mul_of_pos_left hdiv (by linarith : (0 : ℚ) < hi - lo)
    linarith
  · rw [List.head?_map, List.head?_range, if_neg (by omega : ¬ n = 0)]
    simp only [Option.map_some, if_pos hn]
    unfold _lerp
    norm_num
  · obtain ⟨m, rfl⟩ : ∃ m, n = m + 1 := ⟨n - 1, by omega⟩
    rw [List.range_succ, List.map_append]
    simp only [List.map_cons, List.map_nil]
    rw [List.getLast?_concat]
    rw [if_pos hn]
    unfold _lerp
    have hm : ((m : ℚ)) ≠ 0 := by
      have h1 : 1 ≤ m := by omega
      exact_mod_cast (by omega : m ≠ 0)
    have hfrac : ((m : ℚ)) / (((m + 1 : ℕ) : ℚ) - 1) = 1 := by
      push_cast
      rw [add_sub_cancel_right]
      exact div_self hm
    rw [hfrac]
    norm_num

/-- Claim C6 — for every sample-count hint the generated grid satisfies
`cols = max(12, round(√(2·clamp(hint,16,900))))` and
`rows = max(6, ceil(clamp(hint,16,900)/cols))`, hence
`rows × cols ≥ clamp(hint,16,900)`; the latitude array is strictly
increasing, spanning exactly [−80, 80] at its endpoints, and the longitude
array is strictly increasing, spanning exactly [−180, 180]. -/
theorem generate_grid_properties (hint : Int) :
    gridCols hint = max 12 (pyRoundSqrt (2 * clampSamples hint)) ∧
    gridRows hint = max 6 ((clampSamples hint + gridCols hint - 1) / gridCols hint) ∧
    clampSamples hint ≤ gridRows hint * gridCols hint ∧
    List.Chain' (fun a b => a < b) (gridLatitudes hint) ∧
    (gridLatitudes hint).head? = some (-80) ∧
    (gridLatitudes hint).getLast? = some 80 ∧
    List.Chain' (fun a b => a < b) (gridLongitudes hint) ∧
    (gridLongitudes hint).head? = some (-180) ∧
    (gridLongitudes hint).getLast? = some 180 := by
  have hk : 0 < gridCols hint := lt_of_lt_of_le (by norm_num) (le_max_left 12 _)
  have hrows : 1 < gridRows hint := lt_of_lt_of_le (by norm_num) (le_max_left 6 _)
  have hcols : 1 < gridCols hint := lt_of_lt_of_le (by norm_num) (le_max_left 12 _)
  have hlat := lerp_grid_props (gridRows hint) (-80) 80 hrows (by norm_num)
  have hlon := lerp_grid_props (gridCols hint) (-180) 180 hcols (by norm_num)
  refine ⟨by rw [gridCols, Nat.mul_comm], rfl, ?_,
    hlat.1, hlat.2.1, hlat.2.2, hlon.1, hlon.2.1, hlon.2.2⟩
  have hdm := Nat.div_add_mod (clampSamples hint + gridCols hint - 1) (gridCols hint)
  have hmod : (clampSamples hint + gridCols hint - 1) % gridCols hint < gridCols hint :=
    Nat.mod_lt _ hk
  obtain ⟨p, hp⟩ : ∃ p,
      gridCols hint * ((clampSamples hint + gridCols hint - 1) / gridCols hint) = p :=
    ⟨_, rfl⟩
  obtain ⟨r, hr⟩ : ∃ r, (clampSamples hint + gridCols hint - 1) % gridCols hint = r :=
    ⟨_, rfl⟩
  rw [hp, hr] at hdm
  rw [hr] at hmod
  have h1 : clampSamples hint ≤ p := by omega
  have h2 : (clampSamples hint + gridCols hint - 1) / gridCols hint ≤ gridRows hint :=
    le_max_right 6 _
  calc clampSamples hint ≤ p := h1
    _ = gridCols hint * ((clampSamples hint + gridCols hint - 1) / gridCols hint) := hp.symm
    _ ≤ gridCols hint * gridRows hint := Nat.mul_le_mul_left _ h2
    _ = gridRows hint * gridCols hint := Nat.mul_comm _ _

/-- Shared helper: with fewer than two Cn²-bearing layers the integrator
returns the literal degraded-default record (no coherence time is set). -/
theorem calcSummary_default (layers : List AtmosphericLayer)
    (wavelength_nm : ℝ) (fallback_wind : Option ℝ)
    (base_loss_aod base_loss_abs : ℝ)
    (h : cn2LayerCount layers < 2) :
    _calculate_summary_from_layers layers wavelength_nm fallback_wind
      base_loss_aod base_loss_abs =
    { r0_zenith := some 0.1
      fG_zenith := some 30
      theta0_zenith := some 1.5
      wind_rms := some (pyOrFloat fallback_wind 15)
      loss_aod_db := some base_loss_aod
      loss_abs_db := some base_loss_abs
      coherence_time_ms := none
      scintillation_index := none } := by
  unfold _calculate_summary_from_layers
  dsimp only
  split
  · rfl
  · rename_i hc
    exfalso
    apply hc
    simpa [cn2LayerCount] using h

/-- Claim C1 counterexample — on the empty layer list (fewer than 2
Cn²-bearing layers) the degraded-default summary has NO coherence time at
all: `coherence_time_ms` is absent, not a value derived from the 15 m/s
fallback wind. -/
theorem degraded_default_has_no_coherence_time :
    (_calculate_summary_from_layers [] 810 none 0.2 0.1).coherence_time_ms
      = none := by
  rw [calcSummary_default [] 810 none 0.2 0.1 (by decide)]

/-- Claim C1 (amended) — for every input list with fewer than 2 Cn²-bearing
layers and every wavelength, the integrator returns the fixed
degraded-default summary: r0 = 0.1 m, Greenwood frequency 30 Hz, isoplanatic
angle 1.5 arcsec, wind_rms equal to the fallback wind when that is truthy and
15 m/s otherwise, base losses only, and no coherence time or scintillation
index (both absent). -/
theorem summary_integrator_degraded_default (layers : List AtmosphericLayer)
    (wavelength_nm : ℝ) (fallback_wind : Option ℝ)
    (base_loss_aod base_loss_abs : ℝ)
    (h : cn2LayerCount layers < 2) :
    _calculate_summary_from_layers layers wavelength_nm fallback_wind
      base_loss_aod base_loss_abs =
    { r0_zenith := some 0.1
      fG_zenith := some 30
      theta0_zenith := some 1.5
      wind_rms := some (pyOrFloat fallback_wind 15)
      loss_aod_db := some base_loss_aod
      loss_abs_db := some base_loss_abs
      coherence_time_ms := none
      scintillation_index := none } :=
  calcSummary_default layers wavelength_nm fallback_wind base_loss_aod
    base_loss_abs h

/-- Witness for the amended Claim C1 theorem on a concrete input. -/
theorem summary_integrator_degraded_default_witness :
    cn2LayerCount [] < 2 ∧
    _calculate_summary_from_layers [] 810 none 0.2 0.1 =
    { r0_zenith := some 0.1
      fG_zenith := some 30
      theta0_zenith := some 1.5
      wind_rms := some (pyOrFloat none 15)
      loss_aod_db := some 0.2
      loss_abs_db := some 0.1
      coherence_time_ms := none
      scintillation_index := none } :=
  ⟨by decide, summary_integrator_degraded_default [] 810 none 0.2 0.1 (by decide)⟩

/-- Claim C10 — a supplied fallback wind of exactly 0.0 is treated the same
as an absent fallback: whenever the fallback would be used (fewer than 2
Cn²-bearing layers, or every Cn²-bearing layer's wind absent or exactly
zero), the reported wind_rms is 15.0, not 0. -/
theorem summary_integrator_zero_fallback (layers : List AtmosphericLayer)
    (wavelength_nm base_loss_aod base_loss_abs : ℝ)
    (h : cn2LayerCount layers < 2 ∨
      ∀ l ∈ layers, l.cn2.isSome = true →
        (l.wind_mps = none ∨ l.wind_mps = some 0)) :
    (_calculate_summary_from_layers layers wavelength_nm (some 0)
      base_loss_aod base_loss_abs).wind_rms = some 15 := by
  by_cases hlen : cn2LayerCount layers < 2
  · rw [calcSummary_default layers wavelength_nm (some 0) base_loss_aod
      base_loss_abs hlen]
    simp [pyOrFloat]
  · have hall := h.resolve_left hlen
    unfold _calculate_summary_from_layers
    dsimp only
    split
    · rename_i hc
      exfalso
      apply hlen
      simpa [cn2LayerCount] using hc
    · dsimp only
      have hwv : ∀ x ∈ (layers.filter (fun l => l.cn2.isSome)).map
          (fun l => match l.wind_mps with
            | some w => some w
            | none => some (0 : ℝ)), x = some (0 : ℝ) := by
        intro x hx
        rcases List.mem_map.mp hx with ⟨l, hl, rfl⟩
        rcases List.mem_filter.mp hl with ⟨hmem, hsome⟩
        rcases hall l hmem hsome with hw | hw <;> rw [hw]
      have hzero : ∀ w ∈ (((layers.filter (fun l => l.cn2.isSome)).map
            (fun l => l.alt_km * 1000)).zip
            (((layers.filter (fun l => l.cn2.isSome)).map
              (fun l => l.cn2.getD 0)).zip
             ((layers.filter (fun l => l.cn2.isSome)).map
              (fun l => match l.wind_mps with
                | some w => some w
                | none => some (0 : ℝ))))).mergeSort
            (fun a b => decide (a.1 ≤ b.1)) |>.map (fun t => (t.2.2).getD 0),
          w = 0 := by
        intro w hw
        rcases List.mem_map.mp hw with ⟨t, ht, rfl⟩
        have ht2 := List.mem_mergeSort.mp ht
        obtain ⟨h1, h2⟩ := List.of_mem_zip ht2
        obtain ⟨h3, h4⟩ := List.of_mem_zip h2
        have := hwv _ h4
        rw [this]
        rfl
      rw [if_neg]
      · simp [pyOrFloat]
      · intro hpos
        rw [List.length_pos_iff_exists_mem] at hpos
        obtain ⟨w, hwmem⟩ := hpos
        rcases List.mem_filter.mp hwmem with ⟨hwin, hwne⟩
        exact absurd (hzero w hwin) (by simpa using hwne)

/-- Witness for the Claim C10 theorem on a concrete input. -/
theorem summary_integrator_zero_fallback_witness :
    (cn2LayerCount [] < 2 ∨
      ∀ l ∈ ([] : List AtmosphericLayer), l.cn2.isSome = true →
        (l.wind_mps = none ∨ l.wind_mps = some 0)) ∧
    (_calculate_summary_from_layers [] 810 (some 0) 0.2 0.1).wind_rms
      = some 15 :=
  ⟨Or.inl (by decide),
   summary_integrator_zero_fallback [] 810 0.2 0.1 (Or.inl (by decide))⟩

/-- Claim C5 counterexample — the HV wind profile exceeds the 300 hPa speed
`W`: at `W = 5` (the clamp floor) and altitude 20 km the returned wind is
`8 − 5·e⁻⁴ > 5`, so the wind does not lie between 3 m/s and `W`. -/
theorem hv_wind_profile_exceeds_W : 5 < wind_profile_hv 5 20 := by
  unfold wind_profile_hv
  have h4 : (5 : ℝ) ≤ Real.exp 4 := by
    have := Real.add_one_le_exp (4 : ℝ)
    linarith
  have hexp : Real.exp (-(20 : ℝ) / 5) ≤ 1 / 5 := by
    have hrw : (-(20 : ℝ) / 5) = -4 := by norm_num
    rw [hrw, Real.exp_neg, inv_eq_one_div]
    exact one_div_le_one_div_of_le (by norm_num) h4
  have hbody : (7 : ℝ) ≤ 5 * (1 - Real.exp (-(20 : ℝ) / 5)) + 3 := by linarith
  calc (5 : ℝ) < 7 := by norm_num
    _ ≤ 5 * (1 - Real.exp (-(20 : ℝ) / 5)) + 3 := hbody
    _ ≤ max 0 (5 * (1 - Real.exp (-(20 : ℝ) / 5)) + 3) := le_max_right _ _

/-- Claim C5 (amended) — the HV wind profile saturates exponentially with a
5 km altitude scale toward `W + 3` (not `W`): for every altitude `h ≥ 0` the
returned wind lies between 3 m/s and `W + 3`, and it approaches `W + 3` (the
300 hPa speed plus the 3 m/s offset) as the altitude grows. -/
theorem hv_wind_profile_bounds_and_limit (W : ℝ) (hW : 5 ≤ W) :
    (∀ alt_km : ℝ, 0 ≤ alt_km →
      3 ≤ wind_profile_hv W alt_km ∧ wind_profile_hv W alt_km ≤ W + 3) ∧
    Filter.Tendsto (wind_profile_hv W) Filter.atTop (nhds (W + 3)) := by
  have hWpos : (0 : ℝ) ≤ W := by linarith
  have hle1 : ∀ alt : ℝ, 0 ≤ alt → Real.exp (-alt / 5) ≤ 1 := by
    intro alt halt
    refine Real.exp_le_one_iff.mpr ?_
    rw [neg_div]
    have h0 : (0 : ℝ) ≤ alt / 5 := by positivity
    linarith
  have hbody_lo : ∀ alt : ℝ, 0 ≤ alt →
      3 ≤ W * (1 - Real.exp (-alt / 5)) + 3 := by
    intro alt halt
    nlinarith [hle1 alt halt]
  refine ⟨?_, ?_⟩
  · intro alt halt
    have hpos := Real.exp_pos (-alt / 5)
    have hxhi : W * (1 - Real.exp (-alt / 5)) + 3 ≤ W + 3 := by nlinarith
    constructor
    · exact le_trans (hbody_lo alt halt) (le_max_right _ _)
    · exact max_le (by linarith) hxhi
  · have hdiv : Filter.Tendsto (fun alt : ℝ => -alt / 5)
        Filter.atTop Filter.atBot := by
      have h : Filter.Tendsto (fun alt : ℝ => alt / 5) Filter.atTop Filter.atTop :=
        Filter.tendsto_id.atTop_div_const (by norm_num : (0 : ℝ) < 5)
      have h2 := Filter.tendsto_neg_atTop_atBot.comp h
      refine h2.congr ?_
      intro x
      simp [Function.comp, neg_div]
    have hexp : Filter.Tendsto (fun alt : ℝ => Real.exp (-alt / 5))
        Filter.atTop (nhds 0) := by
      exact Real.tendsto_exp_atBot.comp hdiv
    have hlin : Filter.Tendsto (fun alt : ℝ => W * (1 - Real.exp (-alt / 5)) + 3)
        Filter.atTop (nhds (W * (1 - 0) + 3)) :=
      ((hexp.const_sub 1).const_mul W).add_const 3
    have heq : (fun alt : ℝ => W * (1 - Real.exp (-alt / 5)) + 3)
        =ᶠ[Filter.atTop] wind_profile_hv W := by
      filter_upwards [Filter.eventually_ge_atTop (0 : ℝ)] with alt halt
      unfold wind_profile_hv
      rw [max_eq_right (by linarith [hbody_lo alt halt])]
    have hfin := hlin.congr' heq
    have hval : W * (1 - 0) + 3 = W + 3 := by ring
    rwa [hval] at hfin

/-- Witness for the amended Claim C5 theorem at `W = 5`. -/
theorem hv_wind_profile_bounds_and_limit_witness :
    (5 : ℝ) ≤ 5 ∧
    ((∀ alt_km : ℝ, 0 ≤ alt_km →
        3 ≤ wind_profile_hv 5 alt_km ∧ wind_profile_hv 5 alt_km ≤ 5 + 3) ∧
      Filter.Tendsto (wind_profile_hv 5) Filter.atTop (nhds (5 + 3))) :=
  ⟨le_refl 5, hv_wind_profile_bounds_and_limit 5 (le_refl 5)⟩

/-- The HV Cn² profile is strictly positive whenever the ground coefficient
is (its middle term `2.7e-16·exp` alone is strictly positive). -/
theorem cn2_hv_pos (W A h : ℝ) (hA : 0 < A) : 0 < cn2_hv W A h := by
  unfold cn2_hv
  have h1 : (0 : ℝ) ≤ 0.00594 * (W / 27) ^ 2 * (h * 1e-5) ^ 10 *
      Real.exp (-h / 1000) := by positivity
  have h2 : (0 : ℝ) < 2.7e-16 * Real.exp (-h / 1500) := by positivity
  have h3 : (0 : ℝ) < A * Real.exp (-h / 100) := mul_pos hA (Real.exp_pos _)
  linarith

/-- The HV wind profile never drops below its 3 m/s offset at nonnegative
altitude. -/
theorem wind_profile_hv_ge_three (W alt : ℝ) (hW : 0 ≤ W) (halt : 0 ≤ alt) :
    3 ≤ wind_profile_hv W alt := by
  unfold wind_profile_hv
  have hle1 : Real.exp (-alt / 5) ≤ 1 := by
    refine Real.exp_le_one_iff.mpr ?_
    rw [neg_div]
    have h0 : (0 : ℝ) ≤ alt / 5 := by positivity
    linarith
  have : 3 ≤ W * (1 - Real.exp (-alt / 5)) + 3 := by nlinarith
  exact le_trans this (le_max_right _ _)

/-- Claim C9 — every layer produced by the Hufnagel-Valley provider has a
strictly positive Cn² and a wind of at least 3 m/s, for every query
(including queries whose ground turbulence strength is zero or negative),
because the provider floors the ground Cn² coefficient at 1e-17 and the
300 hPa wind speed at 5 m/s. -/
theorem hv57_layers_positive (query : AtmosphereQuery) (dataset : Dataset)
    (l : AtmosphericLayer)
    (hl : l ∈ providerLayers (_hv57_provider query dataset)) :
    (∃ c, l.cn2 = some c ∧ 0 < c) ∧
    (∃ w, l.wind_mps = some w ∧ 3 ≤ w) := by
  unfold _hv57_provider at hl
  dsimp only at hl
  repeat' split at hl
  all_goals simp only [providerLayers, List.not_mem_nil] at hl
  unfold _create_layers_from_samples at hl
  rcases List.mem_map.mp hl with ⟨alt, halt_mem, rfl⟩
  have halt : (0 : ℝ) ≤ alt := by
    simp only [hv_altitudes, List.mem_cons, List.not_mem_nil, or_false] at halt_mem
    rcases halt_mem with rfl | rfl | rfl | rfl | rfl | rfl | rfl | rfl | rfl <;>
      norm_num
  have hA : (0 : ℝ) < max query.ground_cn2 1e-17 :=
    lt_of_lt_of_le (by norm_num) (le_max_right _ _)
  refine ⟨⟨_, rfl, cn2_hv_pos _ _ _ hA⟩,
         ⟨_, rfl, wind_profile_hv_ge_three _ _ ?_ halt⟩⟩
  exact le_trans (by norm_num) (le_max_right _ 5)

/-- Witness for the Claim C9 theorem: the first layer of a concrete
Hufnagel-Valley run. -/
theorem hv57_layers_positive_witness :
    hvWitnessLayer ∈ providerLayers (_hv57_provider witnessQuery hvWitnessDataset) ∧
    ((∃ c, hvWitnessLayer.cn2 = some c ∧ 0 < c) ∧
     (∃ w, hvWitnessLayer.wind_mps = some w ∧ 3 ≤ w)) := by
  have hmem : hvWitnessLayer ∈
      providerLayers (_hv57_provider witnessQuery hvWitnessDataset) := by
    have hlen : (providerLayers (_hv57_provider witnessQuery hvWitnessDataset)).length
        = 9 := rfl
    unfold hvWitnessLayer
    cases hrep : providerLayers (_hv57_provider witnessQuery hvWitnessDataset) with
    | nil => rw [hrep] at hlen; simp at hlen
    | cons a t => simp [List.headI]
  exact ⟨hmem, hv57_layers_positive witnessQuery hvWitnessDataset hvWitnessLayer hmem⟩

/-- A serialized optional float that survived `_clean_dict` contains no
`None`. -/
theorem hasNull_optField_of_kept {o : Option ℝ}
    (h : J.isNull (optField o) = false) : ¬ HasNull (optField o) := by
  cases o with
  | none => simp [optField, J.isNull] at h
  | some x =>
      intro hn
      cases hn

/-- If every value of a dict either is `None` (hence dropped) or contains no
`None`, the cleaned dict contains no `None`. -/
theorem hasNull_obj_cleanDict {payload : List (String × J)}
    (hv : ∀ kv ∈ payload, J.isNull kv.2 = false → ¬ HasNull kv.2) :
    ¬ HasNull (J.obj (_clean_dict payload)) := by
  intro h
  cases h with
  | inObj hmem hnull =>
      rcases List.mem_filter.mp hmem with ⟨hmem0, hkeep⟩
      exact hv _ hmem0 (by simpa using hkeep) hnull

/-- The cleaned summary dict never contains a `None` value. -/
theorem summary_clean_no_null (s : AtmosphericSummary) :
    ¬ HasNull (J.obj (_clean_dict (summaryAsDict s))) := by
  apply hasNull_obj_cleanDict
  intro kv hkv
  simp only [summaryAsDict, List.mem_cons, List.not_mem_nil, or_false] at hkv
  rcases hkv with rfl | rfl | rfl | rfl | rfl | rfl | rfl | rfl <;>
    exact fun h => hasNull_optField_of_kept h

/-- The cleaned per-layer dict never contains a `None` value. -/
theorem layer_clean_no_null (l : AtmosphericLayer) :
    ¬ HasNull (J.obj (_clean_dict (layerAsDict l))) := by
  apply hasNull_obj_cleanDict
  intro kv hkv
  simp only [layerAsDict, List.mem_cons, List.not_mem_nil, or_false] at hkv
  rcases hkv with rfl | rfl | rfl | rfl | rfl
  · intro _ hn; cases hn
  all_goals exact fun h => hasNull_optField_of_kept h

/-- Claim C3 counterexample — a provider-constructed profile whose
serialization DOES contain a null-valued key: on a dataset whose 850 hPa
temperature is absent, the Bufton provider emits
`metadata["temperature_850hPa_K"] = None`, and `to_dict` passes metadata
through without cleaning it. -/
theorem serialize_metadata_null_counterexample :
    isOkE (_bufton_provider witnessQuery buftonWitnessDataset) = true ∧
    HasNull (J.obj (AtmosphericProfile.to_dict buftonWitnessProfile)) := by
  have hmd : ("temperature_850hPa_K", J.null) ∈ buftonWitnessProfile.metadata :=
    List.Mem.tail _ (List.Mem.tail _ (List.Mem.tail _ (List.Mem.tail _
      (List.Mem.head _))))
  have htop : ("metadata", J.obj buftonWitnessProfile.metadata) ∈
      AtmosphericProfile.to_dict buftonWitnessProfile := by
    unfold AtmosphericProfile.to_dict
    exact List.Mem.tail _ (List.Mem.tail _ (List.Mem.tail _ (List.Mem.tail _
      (List.Mem.tail _ (List.Mem.tail _ (List.Mem.head _))))))
  exact ⟨rfl, HasNull.inObj htop (HasNull.inObj hmd HasNull.self)⟩

/-- Claim C3 (amended) — `to_dict` drops absent fields from the summary and
from every layer, so the `"summary"` value and every element of the
`"layers"` array contain no null-valued key at any nesting level; `sources`
and `metadata`, however, are emitted verbatim, and a provider may place a
null there (Bufton's `temperature_850hPa_K`, Greenwood's
`humidity_700hPa_percent`). -/
theorem to_dict_cleans_summary_and_layers (p : AtmosphericProfile) :
    (∀ v, ("summary", v) ∈ AtmosphericProfile.to_dict p → ¬ HasNull v) ∧
    (∀ items, ("layers", J.arr items) ∈ AtmosphericProfile.to_dict p →
      ∀ v ∈ items, ¬ HasNull v) := by
  constructor
  · intro v hv
    simp only [AtmosphericProfile.to_dict, List.mem_cons, List.not_mem_nil,
      or_false, Prod.mk.injEq] at hv
    rcases hv with ⟨h, _⟩ | ⟨h, _⟩ | ⟨h, _⟩ | ⟨_, rfl⟩ | ⟨h, _⟩ | ⟨h, _⟩ | ⟨h, _⟩
    · exact absurd h (by decide)
    · exact absurd h (by decide)
    · exact absurd h (by decide)
    · exact summary_clean_no_null p.summary
    · exact absurd h (by decide)
    · exact absurd h (by decide)
    · exact absurd h (by decide)
  · intro items hitems v hvmem
    simp only [AtmosphericProfile.to_dict, List.mem_cons, List.not_mem_nil,
      or_false, Prod.mk.injEq] at hitems
    rcases hitems with ⟨h, _⟩ | ⟨h, _⟩ | ⟨h, _⟩ | ⟨h, _⟩ | ⟨_, heq⟩ |
      ⟨h, _⟩ | ⟨h, _⟩
    · exact absurd h (by decide)
    · exact absurd h (by decide)
    · exact absurd h (by decide)
    · exact absurd h (by decide)
    · have hinj : items = p.layers.map (fun l => J.obj (_clean_dict (layerAsDict l))) := by
        injection heq
      subst hinj
      rcases List.mem_map.mp hvmem with ⟨l, _, rfl⟩
      exact layer_clean_no_null l
    · exact absurd h (by decide)
    · exact absurd h (by decide)

/-- Witness for the amended Claim C3 theorem: the summary entry of a concrete
Bufton profile's serialization is null-free. -/
theorem to_dict_cleans_summary_and_layers_witness :
    (("summary", J.obj (_clean_dict (summaryAsDict buftonWitnessProfile.summary)))
        ∈ AtmosphericProfile.to_dict buftonWitnessProfile) ∧
    ¬ HasNull (J.obj (_clean_dict (summaryAsDict buftonWitnessProfile.summary))) :=
  ⟨by
      unfold AtmosphericProfile.to_dict
      exact List.Mem.tail _ (List.Mem.tail _ (List.Mem.tail _ (List.Mem.head _))),
   (to_dict_cleans_summary_and_layers buftonWitnessProfile).1 _
     (by
        unfold AtmosphericProfile.to_dict
        exact List.Mem.tail _ (List.Mem.tail _ (List.Mem.tail _ (List.Mem.head _))))⟩

/-! ## Heap lemmas for the client cache (Claim C4) -/

/-- A read's root is among the addresses it may dereference. -/
theorem self_mem_refsOf (f : Nat) (H : Heap) (r : Ref) : r ∈ refsOf f H r := by
  cases f with
  | zero => simp [refsOf]
  | succ f => simp [refsOf]

/-- Appending cells to a heap does not change what a self-contained read
dereferences. -/
theorem refsOf_append (f : Nat) (H t : Heap) (r : Ref)
    (h : ∀ x ∈ refsOf f H r, x < H.length) :
    refsOf f (H ++ t) r = refsOf f H r := by
  induction f generalizing r with
  | zero => rfl
  | succ f ih =>
      have hr : r < H.length := h r (self_mem_refsOf _ _ _)
      rw [refsOf, refsOf, List.getElem?_append_left hr]
      cases hnd : H[r]? with
      | none => rfl
      | some nd =>
          congr 1
          apply List.flatMap_congr
          intro c hc
          refine ih c ?_
          intro x hx
          refine h x ?_
          simp only [refsOf, hnd]
          exact List.mem_cons_of_mem _ (List.mem_flatMap.mpr ⟨c, hc, hx⟩)

/-- Appending cells to a heap does not change a self-contained read. -/
theorem readVal_append (f : Nat) (H t : Heap) (r : Ref)
    (h : ∀ x ∈ refsOf f H r, x < H.length) :
    readVal f (H ++ t) r = readVal f H r := by
  induction f generalizing r with
  | zero => rfl
  | succ f ih =>
      have hr : r < H.length := h r (self_mem_refsOf _ _ _)
      rw [readVal, readVal, List.getElem?_append_left hr]
      cases hnd : H[r]? with
      | none => rfl
      | some nd =>
          have hchild : ∀ c ∈ childRefs nd, ∀ x ∈ refsOf f H c, x < H.length := by
            intro c hc x hx
            refine h x ?_
            simp only [refsOf, hnd]
            exact List.mem_cons_of_mem _ (List.mem_flatMap.mpr ⟨c, hc, hx⟩)
          cases nd with
          | prim p => rfl
          | dict entries =>
              dsimp only
              congr 1
              apply List.map_congr_left
              intro kv hkv
              have hc : kv.2 ∈ childRefs (Node.dict entries) :=
                List.mem_map_of_mem Prod.snd hkv
              exact congrArg (Prod.mk kv.1) (ih kv.2 (hchild kv.2 hc))
          | arr items =>
              dsimp only
              congr 1
              apply List.map_congr_left
              intro c hcm
              exact ih c (hchild c hcm)

/-- Overwriting a cell outside a read's dereference set does not change the
set. -/
theorem refsOf_set (f : Nat) (H : Heap) (p : Ref) (nd' : Node) (r : Ref)
    (h : p ∉ refsOf f H r) :
    refsOf f (H.set p nd') r = refsOf f H r := by
  induction f generalizing r with
  | zero => rfl
  | succ f ih =>
      have hr : p ≠ r := fun hpr => h (hpr ▸ self_mem_refsOf _ _ _)
      rw [refsOf, refsOf, List.getElem?_set_ne hr]
      cases hnd : H[r]? with
      | none => rfl
      | some nd =>
          congr 1
          apply List.flatMap_congr
          intro c hc
          refine ih c ?_
          intro hx
          refine h ?_
          simp only [refsOf, hnd]
          exact List.mem_cons_of_mem _ (List.mem_flatMap.mpr ⟨c, hc, hx⟩)

/-- Overwriting a cell outside a read's dereference set does not change the
value read. -/
theorem readVal_set (f : Nat) (H : Heap) (p : Ref) (nd' : Node) (r : Ref)
    (h : p ∉ refsOf f H r) :
    readVal f (H.set p nd') r = readVal f H r := by
  induction f generalizing r with
  | zero => rfl
  | succ f ih =>
      have hr : p ≠ r := fun hpr => h (hpr ▸ self_mem_refsOf _ _ _)
      rw [readVal, readVal, List.getElem?_set_ne hr]
      cases hnd : H[r]? with
      | none => rfl
      | some nd =>
          have hchild : ∀ c ∈ childRefs nd, p ∉ refsOf f H c := by
            intro c hc hx
            refine h ?_
            simp only [refsOf, hnd]
            exact List.mem_cons_of_mem _ (List.mem_flatMap.mpr ⟨c, hc, hx⟩)
          cases nd with
          | prim q => rfl
          | dict entries =>
              dsimp only
              congr 1
              apply List.map_congr_left
              intro kv hkv
              have hc : kv.2 ∈ childRefs (Node.dict entries) :=
                List.mem_map_of_mem Prod.snd hkv
              exact congrArg (Prod.mk kv.1) (ih kv.2 (hchild kv.2 hc))
          | arr items =>
              dsimp only
              congr 1
              apply List.map_congr_left
              intro c hcm
              exact ih c (hchild c hcm)

/-- In a downward-pointing segment, a read rooted at `r ≥ lo` dereferences
only addresses in `[lo, r]`. -/
theorem refsOf_bounds_of_goodSeg {H : Heap} {lo : Nat} (hg : GoodSeg H lo) :
    ∀ (f : Nat) (r : Ref), lo ≤ r → ∀ x ∈ refsOf f H r, lo ≤ x ∧ x ≤ r := by
  intro f
  induction f with
  | zero =>
      intro r hr x hx
      simp only [refsOf, List.mem_singleton] at hx
      subst hx
      exact ⟨hr, le_refl _⟩
  | succ f ih =>
      intro r hr x hx
      rw [refsOf] at hx
      rcases List.mem_cons.mp hx with rfl | hx'
      · exact ⟨hr, le_refl _⟩
      · cases hnd : H[r]? with
        | none => rw [hnd] at hx'; simp at hx'
        | some nd =>
            rw [hnd] at hx'
            rcases List.mem_flatMap.mp hx' with ⟨c, hc, hxc⟩
            have hcb := hg r nd hr hnd c hc
            have hrec := ih c hcb.1 x hxc
            exact ⟨hrec.1, le_trans hrec.2 (le_of_lt hcb.2)⟩

/-- The empty segment above the heap's end is trivially downward-pointing. -/
theorem goodSeg_trivial (H : Heap) : GoodSeg H H.length := by
  intro r nd hr hnd
  rw [List.getElem?_eq_none (by omega)] at hnd
  cases hnd

/-- Appending a cell whose children respect the floor and precede it keeps
the segment downward-pointing. -/
theorem goodSeg_concat {H : Heap} {lo : Nat} (hg : GoodSeg H lo) {nd : Node}
    (hnd : NodeBelow lo H.length nd) : GoodSeg (H ++ [nd]) lo := by
  intro r nd' hr hget
  rcases lt_trichotomy r H.length with hlt | heq | hgt
  · rw [List.getElem?_append_left hlt] at hget
    exact hg r nd' hr hget
  · subst heq
    rw [List.getElem?_concat_length] at hget
    cases hget
    exact hnd
  · rw [List.getElem?_eq_none (by simp; omega)] at hget
    cases hget

/-- Pointwise relation extraction from `Forall₂` at a member of the right
list. -/
theorem forall2_mem_right {α β : Type} {R : α → β → Prop} {l1 : List α}
    {l2 : List β} (h : List.Forall₂ R l1 l2) {b : β} (hb : b ∈ l2) :
    ∃ a ∈ l1, R a b := by
  induction h with
  | nil => cases hb
  | cons h1 h2 ih =>
      rcases List.mem_cons.mp hb with rfl | hb'
      · exact ⟨_, List.mem_cons_self _ _, h1⟩
      · rcases ih hb' with ⟨a, ha, har⟩
        exact ⟨a, List.mem_cons_of_mem _ ha, har⟩

/-- Reading the freshly zipped entry block of a dict cell gives the original
entries (truncated by the fuel). -/
theorem forall2_zip_map {es : List (String × Val)} {rs : List Ref} {H : Heap}
    {f : Nat}
    (hf : List.Forall₂ (fun (kv : String × Val) (ri : Ref) =>
      readVal f H ri = truncVal f kv.2) es rs) :
    ((es.map Prod.fst).zip rs).map (fun kv => (kv.1, readVal f H kv.2)) =
    es.map (fun kv => (kv.1, truncVal f kv.2)) := by
  induction hf with
  | nil => rfl
  | cons h1 h2 ih =>
      simp only [List.map_cons, List.zip_cons_cons, ih, h1]

/-- Reading the freshly allocated item block of an array cell gives the
original items (truncated by the fuel). -/
theorem forall2_map_eq {items : List Val} {rs : List Ref} {H : Heap} {f : Nat}
    (hf : List.Forall₂ (fun (v : Val) (ri : Ref) =>
      readVal f H ri = truncVal f v) items rs) :
    rs.map (readVal f H) = items.map (truncVal f) := by
  induction hf with
  | nil => rfl
  | cons h1 h2 ih => simp only [List.map_cons, ih, h1]

/-- Allocation satisfies its contract: joint strong induction on the size of
the allocated value / entry list / item list. -/
theorem alloc_ok : ∀ n : Nat,
    (∀ v : Val, sizeOf v ≤ n → AllocValOK v) ∧
    (∀ es : List (String × Val), sizeOf es ≤ n → AllocEntriesOK es) ∧
    (∀ items : List Val, sizeOf items ≤ n → AllocItemsOK items) := by
  intro n
  induction n using Nat.strong_induction_on with
  | _ n ih =>
    refine ⟨?_, ?_, ?_⟩
    · intro v hv H lo hlo hg
      cases v with
      | prim p =>
          refine ⟨⟨[Node.prim p], rfl⟩, by simp [allocVal], by simp [allocVal], ?_, ?_⟩
          · simp only [allocVal]
            exact goodSeg_concat hg (by intro c hc; cases hc)
          · intro f
            cases f with
            | zero => rfl
            | succ f =>
                simp only [allocVal, readVal, List.getElem?_concat_length]
                rfl
      | dict entries =>
          have hsize : sizeOf entries < n := by
            have hspec : sizeOf (Val.dict entries) = 1 + sizeOf entries := by simp
            omega
          have hres := (ih _ hsize).2.1 entries (le_refl _) H lo hlo hg
          obtain ⟨⟨t, ht⟩, hgseg, hfa⟩ := hres
          have hHelen : H.length ≤ (allocEntries H entries).1.length := by
            rw [ht]; simp
          refine ⟨?_, ?_, ?_, ?_, ?_⟩
          · refine ⟨t ++ [Node.dict ((entries.map Prod.fst).zip (allocEntries H entries).2)], ?_⟩
            simp only [allocVal]
            rw [ht, List.append_assoc]
          · simpa [allocVal] using hHelen
          · simp [allocVal]
          · simp only [allocVal]
            refine goodSeg_concat hgseg ?_
            intro c hc
            simp only [childRefs, List.mem_map] at hc
            obtain ⟨pr, hpr, rfl⟩ := hc
            have hcrs : pr.2 ∈ (allocEntries H entries).2 := by
              obtain ⟨a, b⟩ := pr
              exact (List.of_mem_zip hpr).2
            obtain ⟨kv, _, hrel⟩ := forall2_mem_right hfa hcrs
            exact ⟨le_trans hlo hrel.1, hrel.2.1⟩
          · intro f
            cases f with
            | zero => rfl
            | succ f =>
                simp only [allocVal, readVal, List.getElem?_concat_length, truncVal]
                have hfa' : List.Forall₂ (fun (kv : String × Val) (ri : Ref) =>
                    readVal f ((allocEntries H entries).1 ++
                      [Node.dict ((entries.map Prod.fst).zip (allocEntries H entries).2)]) ri
                    = truncVal f kv.2) entries (allocEntries H entries).2 := by
                  refine hfa.imp ?_
                  rintro kv ri ⟨hge, hlt, hread⟩
                  rw [readVal_append]
                  · exact hread f
                  · intro x hx
                    have hb := refsOf_bounds_of_goodSeg hgseg f ri
                      (le_trans hlo hge) x hx
                    exact lt_of_le_of_lt hb.2 hlt
                exact congrArg Val.dict (forall2_zip_map hfa')
      | arr items =>
          have hsize : sizeOf items < n := by
            have hspec : sizeOf (Val.arr items) = 1 + sizeOf items := by simp
            omega
          have hres := (ih _ hsize).2.2 items (le_refl _) H lo hlo hg
          obtain ⟨⟨t, ht⟩, hgseg, hfa⟩ := hres
          have hHelen : H.length ≤ (allocItems H items).1.length := by
            rw [ht]; simp
          refine ⟨?_, ?_, ?_, ?_, ?_⟩
          · refine ⟨t ++ [Node.arr (allocItems H items).2], ?_⟩
            simp only [allocVal]
            rw [ht, List.append_assoc]
          · simpa [allocVal] using hHelen
          · simp [allocVal]
          · simp only [allocVal]
            refine goodSeg_concat hgseg ?_
            intro c hc
            simp only [childRefs] at hc
            obtain ⟨v', _, hrel⟩ := forall2_mem_right hfa hc
            exact ⟨le_trans hlo hrel.1, hrel.2.1⟩
          · intro f
            cases f with
            | zero => rfl
            | succ f =>
                simp only [allocVal, readVal, List.getElem?_concat_length, truncVal]
                have hfa' : List.Forall₂ (fun (v' : Val) (ri : Ref) =>
                    readVal f ((allocItems H items).1 ++
                      [Node.arr (allocItems H items).2]) ri
                    = truncVal f v') items (allocItems H items).2 := by
                  refine hfa.imp ?_
                  rintro v' ri ⟨hge, hlt, hread⟩
                  rw [readVal_append]
                  · exact hread f
                  · intro x hx
                    have hb := refsOf_bounds_of_goodSeg hgseg f ri
                      (le_trans hlo hge) x hx
                    exact lt_of_le_of_lt hb.2 hlt
                exact congrArg Val.arr (forall2_map_eq hfa')
    · intro es hes H lo hlo hg
      cases es with
      | nil =>
          exact ⟨⟨[], by simp [allocEntries]⟩, by simpa [allocEntries] using hg,
            by simp only [allocEntries]; exact List.Forall₂.nil⟩
      | cons kv rest =>
          obtain ⟨k, v⟩ := kv
          have hsv : sizeOf v < n := by
            have hspec : sizeOf ((k, v) :: rest) = 1 + (1 + sizeOf k + sizeOf v) + sizeOf rest := by
              simp
            omega
          have hsrest : sizeOf rest < n := by
            have hspec : sizeOf ((k, v) :: rest) = 1 + (1 + sizeOf k + sizeOf v) + sizeOf rest := by
              simp
            omega
          have h1 := (ih _ hsv).1 v (le_refl _) H lo hlo hg
          obtain ⟨⟨t1, ht1⟩, hge1, hlt1, hg1, hread1⟩ := h1
          have hlo1 : lo ≤ (allocVal H v).1.length := by
            rw [ht1]; simp; omega
          have h2 := (ih _ hsrest).2.1 rest (le_refl _) (allocVal H v).1 lo hlo1 hg1
          obtain ⟨⟨t2, ht2⟩, hg2, hfa2⟩ := h2
          have hH1He : (allocVal H v).1.length ≤
              (allocEntries (allocVal H v).1 rest).1.length := by
            rw [ht2]; simp
          refine ⟨?_, ?_, ?_⟩
          · refine ⟨t1 ++ t2, ?_⟩
            simp only [allocEntries]
            rw [ht2, ht1, List.append_assoc]
          · simpa [allocEntries] using hg2
          · simp only [allocEntries]
            refine List.Forall₂.cons ⟨hge1, ?_, ?_⟩ ?_
            · exact lt_of_lt_of_le hlt1 hH1He
            · intro f
              have hb : ∀ x ∈ refsOf f (allocVal H v).1 (allocVal H v).2,
                  x < (allocVal H v).1.length := by
                intro x hx
                have hb := refsOf_bounds_of_goodSeg hg1 f (allocVal H v).2
                  (le_trans hlo hge1) x hx
                exact lt_of_le_of_lt hb.2 hlt1
              rw [ht2, readVal_append f _ t2 _ hb]
              exact hread1 f
            · refine hfa2.imp ?_
              rintro kv' ri ⟨ha, hb, hc⟩
              have hHH1 : H.length ≤ (allocVal H v).1.length := by rw [ht1]; simp
              exact ⟨le_trans hHH1 ha, hb, hc⟩
    · intro items hitems H lo hlo hg
      cases items with
      | nil =>
          exact ⟨⟨[], by simp [allocItems]⟩, by simpa [allocItems] using hg,
            by simp only [allocItems]; exact List.Forall₂.nil⟩
      | cons v rest =>
          have hsv : sizeOf v < n := by
            have hspec : sizeOf (v :: rest) = 1 + sizeOf v + sizeOf rest := by simp
            omega
          have hsrest : sizeOf rest < n := by
            have hspec : sizeOf (v :: rest) = 1 + sizeOf v + sizeOf rest := by simp
            omega
          have h1 := (ih _ hsv).1 v (le_refl _) H lo hlo hg
          obtain ⟨⟨t1, ht1⟩, hge1, hlt1, hg1, hread1⟩ := h1
          have hlo1 : lo ≤ (allocVal H v).1.length := by
            rw [ht1]; simp; omega
          have h2 := (ih _ hsrest).2.2 rest (le_refl _) (allocVal H v).1 lo hlo1 hg1
          obtain ⟨⟨t2, ht2⟩, hg2, hfa2⟩ := h2
          have hH1He : (allocVal H v).1.length ≤
              (allocItems (allocVal H v).1 rest).1.length := by
            rw [ht2]; simp
          refine ⟨?_, ?_, ?_⟩
          · refine ⟨t1 ++ t2, ?_⟩
            simp only [allocItems]
            rw [ht2, ht1, List.append_assoc]
          · simpa [allocItems] using hg2
          · simp only [allocItems]
            refine List.Forall₂.cons ⟨hge1, ?_, ?_⟩ ?_
            · exact lt_of_lt_of_le hlt1 hH1He
            · intro f
              have hb : ∀ x ∈ refsOf f (allocVal H v).1 (allocVal H v).2,
                  x < (allocVal H v).1.length := by
                intro x hx
                have hb := refsOf_bounds_of_goodSeg hg1 f (allocVal H v).2
                  (le_trans hlo hge1) x hx
                exact lt_of_le_of_lt hb.2 hlt1
              rw [ht2, readVal_append f _ t2 _ hb]
              exact hread1 f
            · refine hfa2.imp ?_
              rintro v' ri ⟨ha, hb, hc⟩
              have hHH1 : H.length ≤ (allocVal H v).1.length := by rw [ht1]; simp
              exact ⟨le_trans hHH1 ha, hb, hc⟩

/-- Allocation of any single value satisfies its contract. -/
theorem allocVal_ok (v : Val) : AllocValOK v :=
  (alloc_ok (sizeOf v)).1 v (le_refl _)

/-- Claim C4 — two `fetch_hourly` calls whose rounded coordinates, date key
and deduplicated-sorted variable set agree (both keys equal `K`) issue
exactly one remote request from a fresh process state; the two returned
datasets read back structurally equal, and overwriting any heap cell one of
them dereferences changes neither what the other reads nor what the cached
entry reads; a call with an empty variable list fails with a provider
error. -/
theorem fetch_hourly_cache_correct
    (remote : CacheKey → Val) (lat1 lon1 lat2 lon2 : ℚ) (dk1 dk2 : String)
    (vars1 vars2 : List String) (K : CacheKey)
    (hne1 : vars1.isEmpty = false) (hne2 : vars2.isEmpty = false)
    (hK1 : K = { latKey := pyRound3 lat1, lonKey := pyRound3 lon1,
                 dateKey := dk1, variableTuple := sortedDedupVars vars1 })
    (hK2 : K = { latKey := pyRound3 lat2, lonKey := pyRound3 lon2,
                 dateKey := dk2, variableTuple := sortedDedupVars vars2 })
    (hresp : hasHourlyKey (remote K) = true) :
    (∃ d1 s1 d2 s2 c,
      fetch_hourly remote lat1 lon1 dk1 vars1 initialClientState
        = (Except.ok d1, s1) ∧
      fetch_hourly remote lat2 lon2 dk2 vars2 s1 = (Except.ok d2, s2) ∧
      s1.remoteCount = 1 ∧ s2.remoteCount = 1 ∧
      s2.cache = [(K, c)] ∧
      (∀ f, readVal f s2.heap d1 = readVal f s2.heap d2) ∧
      (∀ g p, p ∈ refsOf g s2.heap d1 → ∀ f nd,
        readVal f (s2.heap.set p nd) d2 = readVal f s2.heap d2 ∧
        readVal f (s2.heap.set p nd) c = readVal f s2.heap c) ∧
      (∀ g p, p ∈ refsOf g s2.heap d2 → ∀ f nd,
        readVal f (s2.heap.set p nd) d1 = readVal f s2.heap d1 ∧
        readVal f (s2.heap.set p nd) c = readVal f s2.heap c)) ∧
    (∀ (remote' : CacheKey → Val) (lat lon : ℚ) (dk : String) (s : ClientState),
      fetch_hourly remote' lat lon dk [] s
        = (Except.error (AtmError.providerError
            "No variables requested for Open-Meteo fetch"), s)) := by
  refine ⟨?_, fun remote' lat lon dk s => rfl⟩
  rcases hA1 : allocVal [] (remote K) with ⟨H1, c⟩
  rcases hA2 : allocVal H1 (readVal (c + 1) H1 c) with ⟨H2, d1⟩
  rcases hA3 : allocVal H2 (readVal (c + 1) H2 c) with ⟨H3, d2⟩
  -- allocation contracts for the three allocations
  have hC1 := allocVal_ok (remote K) [] 0 (le_refl 0) (goodSeg_trivial [])
  rw [hA1] at hC1
  dsimp only at hC1
  obtain ⟨⟨t1, hH1⟩, _, hc_lt, hgseg1, hread1⟩ := hC1
  have hC2 := allocVal_ok (readVal (c + 1) H1 c) H1 H1.length (le_refl _)
    (goodSeg_trivial H1)
  rw [hA2] at hC2
  dsimp only at hC2
  obtain ⟨⟨t2, hH2⟩, hd1_ge, hd1_lt, hgseg2, hread2⟩ := hC2
  have hC3 := allocVal_ok (readVal (c + 1) H2 c) H2 H2.length (le_refl _)
    (goodSeg_trivial H2)
  rw [hA3] at hC3
  dsimp only at hC3
  obtain ⟨⟨t3, hH3⟩, hd2_ge, hd2_lt, hgseg3, hread3⟩ := hC3
  have hlen12 : H1.length ≤ H2.length := by rw [hH2]; simp
  have hlen23 : H2.length ≤ H3.length := by rw [hH3]; simp
  -- the cached root reads only inside the first segment
  have hbound_c : ∀ f, ∀ x ∈ refsOf f H1 c, x < H1.length := by
    intro f x hx
    have hb := refsOf_bounds_of_goodSeg hgseg1 f c (Nat.zero_le c) x hx
    exact lt_of_le_of_lt hb.2 hc_lt
  have hreads_c_H2 : ∀ f, readVal f H2 c = readVal f H1 c := by
    intro f
    rw [hH2]
    exact readVal_append f H1 t2 c (hbound_c f)
  have hrefs_c_H2 : ∀ f, refsOf f H2 c = refsOf f H1 c := by
    intro f
    rw [hH2]
    exact refsOf_append f H1 t2 c (hbound_c f)
  have hbound_c2 : ∀ f, ∀ x ∈ refsOf f H2 c, x < H2.length := by
    intro f x hx
    rw [hrefs_c_H2 f] at hx
    exact lt_of_lt_of_le (hbound_c f x hx) hlen12
  have hreads_c_H3 : ∀ f, readVal f H3 c = readVal f H1 c := by
    intro f
    rw [hH3, readVal_append f H2 t3 c (hbound_c2 f)]
    exact hreads_c_H2 f
  have hrefs_c_H3 : ∀ f, refsOf f H3 c = refsOf f H1 c := by
    intro f
    rw [hH3, refsOf_append f H2 t3 c (hbound_c2 f)]
    exact hrefs_c_H2 f
  -- the first copy reads only inside the second segment
  have hbounds_d1 : ∀ f, ∀ x ∈ refsOf f H2 d1, H1.length ≤ x ∧ x < H2.length := by
    intro f x hx
    have hb := refsOf_bounds_of_goodSeg hgseg2 f d1 hd1_ge x hx
    exact ⟨hb.1, lt_of_le_of_lt hb.2 hd1_lt⟩
  have hreads_d1_H3 : ∀ f, readVal f H3 d1 = readVal f H2 d1 := by
    intro f
    rw [hH3]
    exact readVal_append f H2 t3 d1 (fun x hx => (hbounds_d1 f x hx).2)
  have hrefs_d1_H3 : ∀ f, refsOf f H3 d1 = refsOf f H2 d1 := by
    intro f
    rw [hH3]
    exact refsOf_append f H2 t3 d1 (fun x hx => (hbounds_d1 f x hx).2)
  -- the second copy reads only inside the third segment
  have hbounds_d2 : ∀ f, ∀ x ∈ refsOf f H3 d2, H2.length ≤ x := by
    intro f x hx
    exact (refsOf_bounds_of_goodSeg hgseg3 f d2 hd2_ge x hx).1
  -- the two fetches compute as expected
  have hf1 : fetch_hourly remote lat1 lon1 dk1 vars1 initialClientState =
      (Except.ok d1, { heap := H2, cache := [(K, c)], remoteCount := 1 }) := by
    rw [fetch_hourly, hne1]
    rw [if_neg (by simp)]
    try dsimp only
    rw [← hK1]
    rw [_fetch_open_meteo_cached]
    try dsimp only [initialClientState]
    rw [hresp]
    rw [if_pos rfl]
    try dsimp only
    rw [hA1]
    rw [show (List.lookup K ([] : List (CacheKey × Ref))) = none from rfl]
    try dsimp only
    rw [pyDeepcopy, hA2]
  have hf2 : fetch_hourly remote lat2 lon2 dk2 vars2
      { heap := H2, cache := [(K, c)], remoteCount := 1 } =
      (Except.ok d2, { heap := H3, cache := [(K, c)], remoteCount := 1 }) := by
    rw [fetch_hourly, hne2]
    rw [if_neg (by simp)]
    try dsimp only
    rw [← hK2]
    rw [_fetch_open_meteo_cached]
    have hlook : (([(K, c)] : List (CacheKey × Ref)).lookup K) = some c := by
      simp [List.lookup]
    try dsimp only
    rw [hlook]
    try dsimp only
    rw [pyDeepcopy, hA3]
  refine ⟨d1, _, d2, _, c, hf1, hf2, rfl, rfl, rfl, ?_, ?_, ?_⟩
  · intro f
    rw [hreads_d1_H3 f, hread2 f, hread3 f, hreads_c_H2 (c + 1)]
  · intro g p hp f nd
    rw [hrefs_d1_H3 g] at hp
    obtain ⟨hpb1, hpb2⟩ := hbounds_d1 g p hp
    constructor
    · refine readVal_set f H3 p nd d2 ?_
      intro hmem
      exact absurd (hbounds_d2 f p hmem) (not_le.mpr hpb2)
    · refine readVal_set f H3 p nd c ?_
      intro hmem
      rw [hrefs_c_H3 f] at hmem
      exact absurd (hbound_c f p hmem) (not_lt.mpr hpb1)
  · intro g p hp f nd
    have hpge := hbounds_d2 g p hp
    constructor
    · refine readVal_set f H3 p nd d1 ?_
      intro hmem
      rw [hrefs_d1_H3 f] at hmem
      exact absurd (hbounds_d1 f p hmem).2 (not_lt.mpr hpge)
    · refine readVal_set f H3 p nd c ?_
      intro hmem
      rw [hrefs_c_H3 f] at hmem
      exact absurd (hbound_c f p hmem) (not_lt.mpr (le_trans hlen12 hpge))

/-- Witness for the Claim C4 theorem at a concrete remote endpoint, location,
date and variable list. -/
theorem fetch_hourly_cache_correct_witness :
    ((["t"] : List String).isEmpty = false ∧
     hasHourlyKey ((fun _ : CacheKey => Val.dict [("hourly", Val.arr [])])
       witnessCacheKey) = true) ∧
    ((∃ d1 s1 d2 s2 c,
      fetch_hourly (fun _ : CacheKey => Val.dict [("hourly", Val.arr [])])
        0 0 "2024-06-15" ["t"] initialClientState = (Except.ok d1, s1) ∧
      fetch_hourly (fun _ : CacheKey => Val.dict [("hourly", Val.arr [])])
        0 0 "2024-06-15" ["t"] s1 = (Except.ok d2, s2) ∧
      s1.remoteCount = 1 ∧ s2.remoteCount = 1 ∧
      s2.cache = [(witnessCacheKey, c)] ∧
      (∀ f, readVal f s2.heap d1 = readVal f s2.heap d2) ∧
      (∀ g p, p ∈ refsOf g s2.heap d1 → ∀ f nd,
        readVal f (s2.heap.set p nd) d2 = readVal f s2.heap d2 ∧
        readVal f (s2.heap.set p nd) c = readVal f s2.heap c) ∧
      (∀ g p, p ∈ refsOf g s2.heap d2 → ∀ f nd,
        readVal f (s2.heap.set p nd) d1 = readVal f s2.heap d1 ∧
        readVal f (s2.heap.set p nd) c = readVal f s2.heap c)) ∧
    (∀ (remote' : CacheKey → Val) (lat lon : ℚ) (dk : String) (s : ClientState),
      fetch_hourly remote' lat lon dk [] s
        = (Except.error (AtmError.providerError
            "No variables requested for Open-Meteo fetch"), s))) :=
  ⟨⟨rfl, rfl⟩,
   fetch_hourly_cache_correct (fun _ : CacheKey => Val.dict [("hourly", Val.arr [])])
     0 0 0 0 "2024-06-15" "2024-06-15" ["t"] ["t"] witnessCacheKey
     rfl rfl rfl rfl rfl⟩

end QKD
